import Mathlib

/-!
Verification of the natural-language specification of the
`media-services-v3-python` sample scripts against a shallow embedding of
their Python source.  The repository holds three scripts —
`AnalyzeVideoAndAudios/Program.py`, `EncryptWithAES/Program.py` and
`Live/Program.py` — each a linear orchestration of remote Azure Media
Services calls.  Remote interactions are embedded as explicit data: a poll
loop becomes a recursion over the finite list of fetch results it would
observe, and stateful orchestration becomes explicit state passing over a
record of the remote account's resources together with the trace of API
calls issued.
-/

namespace MediaServices

/-! ## Job model (azure.mgmt.media.models.JobState and Job)

The scripts inspect `job.state` against `JobState.finished`, `JobState.error`
and `JobState.canceled`, and print each `job.outputs[i].state` and
`.progress`. -/

/-- The job states of the Media Services v3 API that the scripts compare
against (`JobState` in `azure.mgmt.media.models`). -/
inductive JobState where
  | queued
  | scheduled
  | processing
  | finished
  | error
  | canceled
deriving DecidableEq, Repr

/-- One entry of `job.outputs`: a state and a progress percentage. -/
structure JobOutput where
  state : JobState
  progress : Nat
deriving DecidableEq, Repr

/-- The slice of a job record that `wait_for_job_to_finish` reads. -/
structure Job where
  state : JobState
  outputs : List JobOutput
deriving DecidableEq, Repr

/-- The exit condition of the poll loop in both scripts:
`job.state == JobState.finished or job.state == JobState.error or
job.state == JobState.canceled`. -/
def Job.isTerminal (j : Job) : Bool :=
  j.state = JobState.finished || j.state = JobState.error ||
    j.state = JobState.canceled

/-- `SleepIntervalMs = 5` in both `wait_for_job_to_finish` bodies; the value
is passed to `time.sleep`, whose unit is seconds. -/
def SleepIntervalMs : Nat := 5

/-- Shallow embedding of `wait_for_job_to_finish`
(`AnalyzeVideoAndAudios/Program.py` lines 190–219 and
`EncryptWithAES/Program.py` lines 229–258; the two bodies are identical).
The loop `while True: job = jobs.get(...); ...; if terminal: break;
time.sleep(SleepIntervalMs)` is embedded over the finite list of job
records the successive `jobs.get` calls would return: the loop consumes one
fetch per iteration, exits with the fetched job when it is terminal, and
otherwise sleeps `SleepIntervalMs` seconds before the next fetch.  The
result pairs the returned job with the total seconds slept; `none` means
the supplied fetches were exhausted with the loop still running. -/
def wait_for_job_to_finish : List Job → Option (Job × Nat)
  | [] => none
  | j :: rest =>
    if j.isTerminal then some (j, 0)
    else
      match wait_for_job_to_finish rest with
      | some (j', t) => some (j', t + SleepIntervalMs)
      | none => none

/-! ## Live-event existence poll (Live/Program.py lines 203–207)

`while True: live_event = live_events.get(...); if live_event != None:
break; time.sleep(5)` — embedded over the list of `get` results. -/

/-- The live-event resource states the live script compares against
(`LiveEventResourceState` in `azure.mgmt.media.models`). -/
inductive LiveEventResourceState where
  | stopped
  | starting
  | running
  | stopping
  | deleting
deriving DecidableEq, Repr

/-- The slice of a live-event record the scripts read: its resource state
(`live_event.resource_state`), and the URLs of its input and preview
endpoints (`live_event.input.endpoints[i].url`,
`live_event.preview.endpoints[i].url`). -/
structure LiveEvent where
  resource_state : LiveEventResourceState
  input_endpoint_urls : List String := []
  preview_endpoint_urls : List String := []
deriving DecidableEq, Repr

/-- Shallow embedding of the live-event existence poll in
`Live/Program.py` `run` (lines 203–207): fetch, break when the result is
non-null, otherwise `time.sleep(5)` and retry.  Embedded over the finite
list of `live_events.get` results; the result pairs the non-null live event
with the total seconds slept, and `none` means every supplied fetch was
null and the loop is still running. -/
def live_event_poll : List (Option LiveEvent) → Option (LiveEvent × Nat)
  | [] => none
  | f :: rest =>
    match f with
    | some ev => some (ev, 0)
    | none =>
      match live_event_poll rest with
      | some (ev, t) => some (ev, t + 5)
      | none => none

/-! ## JWT token builder (EncryptWithAES/Program.py lines 283–303)

`get_token` builds a Python dict literal and signs it with
`jwt.encode(payload, token_verification_key, algorithm='HS256')`.
Datetimes are embedded as UTC epoch seconds (PyJWT serialises datetime
claims to epoch seconds); the dict literal is embedded as left-to-right
insertion where a later key overwrites an earlier binding of the same
key. -/

/-- A value in the JWT claim set: a string claim, or a datetime claim in
UTC epoch seconds. -/
inductive ClaimValue where
  | str (s : String)
  | time (t : Int)
deriving DecidableEq, Repr

/-- Python dict insertion: binds `k` to `v`, overwriting any earlier
binding of `k`. -/
def payloadInsert (m : String → Option ClaimValue) (k : String)
    (v : ClaimValue) : String → Option ClaimValue :=
  fun q => if q = k then some v else m q

/-- The observable content of `jwt.encode(payload, key, algorithm='HS256')`:
the claim set, the signing key (a byte string), and the signing
algorithm. -/
structure JwtToken where
  payload : String → Option ClaimValue
  key : List Nat
  alg : String

/-- Shallow embedding of `get_token` (EncryptWithAES/Program.py lines
283–303).  `now` is the value `datetime.datetime.utcnow()` reads from the
clock (the two `utcnow()` calls in the dict literal are modelled as reading
the same clock value); `timedelta(minutes = -5)` adds −5·60 seconds and
`timedelta(hours = 1)` adds 3600 seconds.  The dict literal
`{'iss': issuer, 'aud': audience, key_identifier_claim_type:
key_identifier, 'nbf': ..., 'exp': ...}` is embedded as successive
insertions. -/
def get_token (now : Int)
    (issuer audience key_identifier_claim_type key_identifier : String)
    (token_verification_key : List Nat) : JwtToken :=
  let payload :=
    payloadInsert
      (payloadInsert
        (payloadInsert
          (payloadInsert
            (payloadInsert (fun _ => none) "iss" (ClaimValue.str issuer))
            "aud" (ClaimValue.str audience))
          key_identifier_claim_type (ClaimValue.str key_identifier))
        "nbf" (ClaimValue.time (now + (-5) * 60)))
      "exp" (ClaimValue.time (now + 1 * 3600))
  { payload := payload, key := token_verification_key, alg := "HS256" }

/-- The configuration the encrypt script's `Program.__init__` reads from
`settings.ini`, together with the per-run symmetric signing key
`self.token_sign_key = urandom(40)` (40 random bytes drawn once per run,
line 33). -/
structure EncryptProgram where
  issuer : String
  audience : String
  content_key_identifier_claim_type : String
  content_key_policy_name : String
  token_sign_key : List Nat
  token_sign_key_len : token_sign_key.length = 40

/-- The token the encrypt script's `run` builds (line 416):
`self.get_token(self.issuer, self.audience,
self.content_key_identifier_claim_type, key_identifier,
self.token_sign_key)`. -/
def run_token (p : EncryptProgram) (now : Int) (key_identifier : String) :
    JwtToken :=
  get_token now p.issuer p.audience p.content_key_identifier_claim_type
    key_identifier p.token_sign_key

/-! ## Account resource model

The remote resources the scripts create, fetch and delete, keyed by
resource name.  The `resource_group_name`/`account_name` arguments are the
same constants in every call of a script, so they are left implicit in the
model. -/

/-- The presets the scripts pass to a transform: `VideoAnalyzerPreset`,
`AudioAnalyzerPreset`, `BuiltInStandardEncoderPreset`. -/
inductive Preset where
  | videoAnalyzer (audio_language : String)
  | audioAnalyzer (audio_language : String)
  | builtInStandardEncoder (preset_name : String)
deriving DecidableEq, Repr

/-- `TransformOutput(preset = preset)`. -/
structure TransformOutput where
  preset : Preset
deriving DecidableEq, Repr

/-- A transform record: the output list it was created with. -/
structure Transform where
  outputs : List TransformOutput
deriving DecidableEq, Repr

/-- The slice of an asset record the scripts read (`asset.name`). -/
structure Asset where
  name : String
deriving DecidableEq, Repr

/-- The slice of a content-key-policy record the scripts read. -/
structure ContentKeyPolicy where
  name : String
deriving DecidableEq, Repr

/-- The slice of a streaming-locator record the scripts read:
`locator.name` and the ids of its system-generated content keys
(`locator.content_keys[i].id`). -/
structure StreamingLocator where
  name : String
  asset_name : String
  content_keys : List String
deriving DecidableEq, Repr

/-- `StreamingEndpointResourceState` values the scripts compare against. -/
inductive StreamingEndpointResourceState where
  | running
  | stopped
  | starting
  | stopping
deriving DecidableEq, Repr

/-- The slice of a streaming-endpoint record the scripts read. -/
structure StreamingEndpoint where
  resource_state : StreamingEndpointResourceState
  host_name : String
deriving DecidableEq, Repr

/-- `StreamingPolicyStreamingProtocol` values. -/
inductive StreamingProtocol where
  | dash
  | hls
  | smoothStreaming
  | download
deriving DecidableEq, Repr

/-- One entry of `paths.streaming_paths` as read by the scripts. -/
structure StreamingPath where
  streaming_protocol : StreamingProtocol
  encryption_scheme : String
  paths : List String
deriving DecidableEq, Repr

/-- The remote account's resources: asset names, transforms by name, jobs
as (transform name, job name) pairs, streaming-locator names,
content-key-policy names, streaming endpoints by name, live events by
name, and live outputs as (live event name, live output name) pairs. -/
structure AccountState where
  assets : List String
  transforms : List (String × Transform)
  jobs : List (String × String)
  streaming_locators : List String
  content_key_policies : List String
  streaming_endpoints : List (String × StreamingEndpoint)
  live_events : List (String × LiveEvent)
  live_outputs : List (String × String)
deriving DecidableEq, Repr

/-- One client call a script issues (client method plus its name
arguments); `prompt` records a console `input(...)`, `sleep` a
`time.sleep`, and the `blob_*` constructors the storage-API calls. -/
inductive Call where
  | mediaservices_get
  | assets_get (asset_name : String)
  | assets_create_or_update (asset_name : String)
  | assets_delete (asset_name : String)
  | assets_list
  | assets_list_container_sas (asset_name : String)
  | transforms_get (transform_name : String)
  | transforms_create_or_update (transform_name : String)
      (output : List TransformOutput)
  | jobs_create (transform_name job_name : String)
  | jobs_get (transform_name job_name : String)
  | jobs_list (transform_name : String)
  | jobs_delete (transform_name job_name : String)
  | content_key_policies_get (policy_name : String)
  | content_key_policies_create_or_update (policy_name : String)
  | content_key_policies_delete (policy_name : String)
  | streaming_locators_create (locator_name : String)
  | streaming_locators_list
  | streaming_locators_list_paths (locator_name : String)
  | streaming_locators_delete (locator_name : String)
  | streaming_endpoints_get (endpoint_name : String)
  | streaming_endpoints_start (endpoint_name : String)
  | live_events_create (live_event_name : String) (auto_start : Bool)
  | live_events_get (live_event_name : String)
  | live_events_stop (live_event_name : String)
      (remove_outputs_on_stop : Bool)
  | live_events_delete (live_event_name : String)
  | live_outputs_create (live_event_name live_output_name : String)
  | blob_create_from_path (file_name : String)
  | blob_list
  | blob_get_to_path (blob_name : String)
  | prompt (message : String)
  | sleep (seconds : Nat)
deriving DecidableEq, Repr

/-- A Python exception as the scripts distinguish them: the
`ApiErrorException` type that `Live/Program.py` catches, or any other
exception type. -/
inductive PyExc where
  | apiError (msg : String)
  | other (msg : String)
deriving DecidableEq, Repr

/-- The environment's behavior for one client call: return normally, raise
`ApiErrorException`, or raise an exception of some other type. -/
inductive CallOutcome where
  | ok
  | raiseApi (msg : String)
  | raiseOther (msg : String)
deriving DecidableEq, Repr

/-- The result of executing a Python block: normal completion, a raised
exception, or no completion at all (an infinite loop). -/
inductive BlockResult (α : Type) where
  | ok (a : α)
  | exc (e : PyExc)
  | divergent
deriving DecidableEq, Repr

/-- The environment of one script execution: for each client call whether
it returns or raises, and the data the script reads that the account-state
model does not determine (clock and random values, SAS and endpoint
payloads, successive job fetch results). -/
structure Env where
  behave : Call → CallOutcome
  /-- `str(uuid.uuid1())` drawn at the start of `run` (the live script
  truncates it to 13 characters). -/
  uniqueness : String
  /-- `str(uniqueness)` in `create_output_asset`, where
  `uniqueness = uuid.uuid1` binds the function object itself (the call
  parentheses are missing in the source): Python's rendering of the
  `uuid.uuid1` function object, a nonempty string constant such as
  `<function uuid1 at 0x7f...>`. -/
  uuid1_repr : String
  /-- `datetime.datetime.utcnow()` in UTC epoch seconds. -/
  now : Int
  /-- `response.asset_container_sas_urls` of `assets.list_container_sas`. -/
  asset_container_sas_urls : List String
  /-- The blobs listed in an asset container by `list_blobs`. -/
  blobs : List String
  /-- The successive `jobs.get` results the job poll loop observes. -/
  job_fetches : List Job
  /-- `paths.streaming_paths` of `streaming_locators.list_paths`. -/
  streaming_paths : List StreamingPath
  /-- `locator.content_keys[i].id` of the created streaming locator. -/
  locator_content_key_ids : List String
  /-- `live_event.input.endpoints[i].url` of the created live event. -/
  ingest_urls : List String
  /-- `live_event.preview.endpoints[i].url` of the created live event. -/
  preview_urls : List String
  /-- `mediaservices.get(...).location`. -/
  account_location : String

/-- The observable execution state threaded through a script run: the
remote account state, the client calls issued so far, the console lines
printed so far, and invocation counters for the live script's two cleanup
helpers. -/
structure RunSt where
  state : AccountState
  calls : List Call
  printed : List String
  cleanup_live_event_invocations : Nat
  cleanup_locator_asset_invocations : Nat
deriving DecidableEq, Repr

/-- A Python block as a state transformer that may raise or diverge. -/
def M (α : Type) : Type := RunSt → BlockResult α × RunSt

instance : Monad M where
  pure a := fun st => (BlockResult.ok a, st)
  bind x f := fun st =>
    match x st with
    | (BlockResult.ok a, st') => f a st'
    | (BlockResult.exc e, st') => (BlockResult.exc e, st')
    | (BlockResult.divergent, st') => (BlockResult.divergent, st')

/-- Issue a client call: record it in the trace and consult the
environment for whether it raises. -/
def callRemote (env : Env) (c : Call) : M Unit := fun st =>
  let st' := { st with calls := st.calls ++ [c] }
  match env.behave c with
  | CallOutcome.ok => (BlockResult.ok (), st')
  | CallOutcome.raiseApi m => (BlockResult.exc (PyExc.apiError m), st')
  | CallOutcome.raiseOther m => (BlockResult.exc (PyExc.other m), st')

/-- Record a local effect that cannot raise (`time.sleep`). -/
def recordCall (c : Call) : M Unit := fun st =>
  (BlockResult.ok (), { st with calls := st.calls ++ [c] })

/-- Read the remote account state. -/
def getAccount : M AccountState := fun st => (BlockResult.ok st.state, st)

/-- Apply a remote state change. -/
def setAccount (f : AccountState → AccountState) : M Unit := fun st =>
  (BlockResult.ok (), { st with state := f st.state })

/-- A `print(...)` line. -/
def printLine (line : String) : M Unit := fun st =>
  (BlockResult.ok (), { st with printed := st.printed ++ [line] })

/-- Several `print(...)` lines. -/
def printLines (lines : List String) : M Unit := fun st =>
  (BlockResult.ok (), { st with printed := st.printed ++ lines })

/-- Raise an exception from inside a block (Python `IndexError` /
`AttributeError` from unguarded indexing or attribute access). -/
def raise (α : Type) (e : PyExc) : M α := fun st => (BlockResult.exc e, st)

/-- A loop that never exits. -/
def diverge (α : Type) : M α := fun st => (BlockResult.divergent, st)

/-- A Python `for` loop over a list. -/
def forEachM {α : Type} : List α → (α → M Unit) → M Unit
  | [], _ => pure ()
  | x :: rest, f => do
    f x
    forEachM rest f

/-- A console `input(message)`; it can raise (e.g. `EOFError`), so it
consults the environment. -/
def promptM (env : Env) (message : String) : M Unit :=
  callRemote env (Call.prompt message)

/-- The initial execution state of one `run` over account state `s`. -/
def initRunSt (s : AccountState) : RunSt :=
  { state := s, calls := [], printed := [],
    cleanup_live_event_invocations := 0,
    cleanup_locator_asset_invocations := 0 }

/-! ## Client operations

Each embeds one client method: issue the call (which the environment may
turn into a raise), then apply its effect on the account model and return
its result.  In Media Services v3 a `get` on an entity returns null when
the entity does not exist. -/

/-- `client.transforms.get`. -/
def transformsGetM (env : Env) (transform_name : String) :
    M (Option Transform) := do
  callRemote env (Call.transforms_get transform_name)
  let s ← getAccount
  pure (s.transforms.lookup transform_name)

/-- `client.transforms.create_or_update`: stores the transform with the
given output list and returns it. -/
def transformsCreateOrUpdateM (env : Env) (transform_name : String)
    (output : List TransformOutput) : M Transform := do
  callRemote env (Call.transforms_create_or_update transform_name output)
  setAccount (fun s =>
    { s with transforms := (transform_name, ⟨output⟩) :: s.transforms })
  pure ⟨output⟩

/-- `client.assets.get`. -/
def assetsGetM (env : Env) (asset_name : String) : M (Option Asset) := do
  callRemote env (Call.assets_get asset_name)
  let s ← getAccount
  pure (if asset_name ∈ s.assets then some ⟨asset_name⟩ else none)

/-- `client.assets.create_or_update(…, asset_name, Asset())`: creates the
asset (a no-op on the stored set when it already exists) and returns it. -/
def assetsCreateOrUpdateM (env : Env) (asset_name : String) : M Asset := do
  callRemote env (Call.assets_create_or_update asset_name)
  setAccount (fun s =>
    { s with assets :=
        if asset_name ∈ s.assets then s.assets else s.assets ++ [asset_name] })
  pure ⟨asset_name⟩

/-- `client.assets.delete`. -/
def assetsDeleteM (env : Env) (asset_name : String) : M Unit := do
  callRemote env (Call.assets_delete asset_name)
  setAccount (fun s =>
    { s with assets := s.assets.filter (fun a => decide (a ≠ asset_name)) })

/-- `client.assets.list`: every asset in the account. -/
def assetsListM (env : Env) : M (List Asset) := do
  callRemote env Call.assets_list
  let s ← getAccount
  pure (s.assets.map Asset.mk)

/-- `client.assets.list_container_sas`: the SAS URL payload comes from the
environment. -/
def assetsListContainerSasM (env : Env) (asset_name : String) :
    M (List String) := do
  callRemote env (Call.assets_list_container_sas asset_name)
  pure env.asset_container_sas_urls

/-- `client.jobs.create`: records the job under its transform.  The
created job record the call returns is rebound by the callers with the
poll result before being read, so it is not modelled. -/
def jobsCreateM (env : Env) (transform_name job_name : String) : M Unit := do
  callRemote env (Call.jobs_create transform_name job_name)
  setAccount (fun s =>
    { s with jobs := s.jobs ++ [(transform_name, job_name)] })

/-- `client.jobs.list(…, transform_name)`: the names of the jobs under the
given transform. -/
def jobsListM (env : Env) (transform_name : String) : M (List String) := do
  callRemote env (Call.jobs_list transform_name)
  let s ← getAccount
  pure ((s.jobs.filter (fun p => decide (p.1 = transform_name))).map
    Prod.snd)

/-- `client.jobs.delete`. -/
def jobsDeleteM (env : Env) (transform_name job_name : String) : M Unit := do
  callRemote env (Call.jobs_delete transform_name job_name)
  setAccount (fun s =>
    { s with jobs := s.jobs.filter (fun p =>
        decide ¬(p.1 = transform_name ∧ p.2 = job_name)) })

/-- `client.content_key_policies.get`. -/
def contentKeyPoliciesGetM (env : Env) (policy_name : String) :
    M (Option ContentKeyPolicy) := do
  callRemote env (Call.content_key_policies_get policy_name)
  let s ← getAccount
  pure (if policy_name ∈ s.content_key_policies then some ⟨policy_name⟩
    else none)

/-- `client.content_key_policies.create_or_update`. -/
def contentKeyPoliciesCreateOrUpdateM (env : Env) (policy_name : String) :
    M ContentKeyPolicy := do
  callRemote env (Call.content_key_policies_create_or_update policy_name)
  setAccount (fun s =>
    { s with content_key_policies :=
        if policy_name ∈ s.content_key_policies then s.content_key_policies
        else s.content_key_policies ++ [policy_name] })
  pure ⟨policy_name⟩

/-- `client.content_key_policies.delete`. -/
def contentKeyPoliciesDeleteM (env : Env) (policy_name : String) :
    M Unit := do
  callRemote env (Call.content_key_policies_delete policy_name)
  setAccount (fun s =>
    { s with content_key_policies :=
        s.content_key_policies.filter (fun a => decide (a ≠ policy_name)) })

/-- `client.streaming_locators.create`: stores the locator name and
returns the locator record, whose content-key ids the service generates
(environment data). -/
def streamingLocatorsCreateM (env : Env) (locator_name asset_name : String) :
    M StreamingLocator := do
  callRemote env (Call.streaming_locators_create locator_name)
  setAccount (fun s =>
    { s with streaming_locators :=
        if locator_name ∈ s.streaming_locators then s.streaming_locators
        else s.streaming_locators ++ [locator_name] })
  pure ⟨locator_name, asset_name, env.locator_content_key_ids⟩

/-- `client.streaming_locators.list`: every locator in the account. -/
def streamingLocatorsListM (env : Env) : M (List String) := do
  callRemote env Call.streaming_locators_list
  let s ← getAccount
  pure s.streaming_locators

/-- `client.streaming_locators.delete`. -/
def streamingLocatorsDeleteM (env : Env) (locator_name : String) :
    M Unit := do
  callRemote env (Call.streaming_locators_delete locator_name)
  setAccount (fun s =>
    { s with streaming_locators :=
        s.streaming_locators.filter (fun a => decide (a ≠ locator_name)) })

/-- `client.streaming_locators.list_paths`: the streaming paths come from
the environment. -/
def streamingLocatorsListPathsM (env : Env) (locator_name : String) :
    M (List StreamingPath) := do
  callRemote env (Call.streaming_locators_list_paths locator_name)
  pure env.streaming_paths

/-- `client.streaming_endpoints.get`. -/
def streamingEndpointsGetM (env : Env) (endpoint_name : String) :
    M (Option StreamingEndpoint) := do
  callRemote env (Call.streaming_endpoints_get endpoint_name)
  let s ← getAccount
  pure (s.streaming_endpoints.lookup endpoint_name)

/-- `client.streaming_endpoints.start`. -/
def streamingEndpointsStartM (env : Env) (endpoint_name : String) :
    M Unit := do
  callRemote env (Call.streaming_endpoints_start endpoint_name)
  setAccount (fun s =>
    { s with streaming_endpoints := s.streaming_endpoints.map (fun p =>
        if p.1 = endpoint_name then
          (p.1, { p.2 with
            resource_state := StreamingEndpointResourceState.running })
        else p) })

/-- `client.mediaservices.get(...)`, read for its `.location`. -/
def mediaservicesGetM (env : Env) : M String := do
  callRemote env Call.mediaservices_get
  pure env.account_location

/-- `client.live_events.create(…, live_event, auto_start = True)`: stores
the event in the running state (auto-started) with its service-assigned
ingest and preview endpoints, and returns it. -/
def liveEventsCreateM (env : Env) (live_event_name : String) :
    M LiveEvent := do
  callRemote env (Call.live_events_create live_event_name true)
  setAccount (fun s =>
    { s with live_events := (live_event_name,
        ⟨LiveEventResourceState.running, env.ingest_urls,
          env.preview_urls⟩) :: s.live_events })
  pure ⟨LiveEventResourceState.running, env.ingest_urls, env.preview_urls⟩

/-- `client.live_events.get`, as a pure read of the account state. -/
def live_events_get_op (s : AccountState) (live_event_name : String) :
    Option LiveEvent :=
  s.live_events.lookup live_event_name

/-- `client.live_events.get`. -/
def liveEventsGetM (env : Env) (live_event_name : String) :
    M (Option LiveEvent) := do
  callRemote env (Call.live_events_get live_event_name)
  let s ← getAccount
  pure (live_events_get_op s live_event_name)

/-- `client.live_outputs.create(…, live_event_name, live_output_name,
liveOutput)`: records the live output under its event.  The `LiveOutput`
payload (archive asset name, manifest, archive window) is not read
afterwards. -/
def liveOutputsCreateM (env : Env)
    (live_event_name live_output_name : String) : M Unit := do
  callRemote env (Call.live_outputs_create live_event_name live_output_name)
  setAccount (fun s =>
    { s with live_outputs :=
        s.live_outputs ++ [(live_event_name, live_output_name)] })

/-- Effect of `client.live_events.stop(…, remove_outputs_on_stop = flag)`:
the event moves to the stopped state; with the flag set, its live outputs
are removed. -/
def live_events_stop_op (s : AccountState) (live_event_name : String)
    (remove_outputs_on_stop : Bool) : AccountState :=
  { s with
    live_events := s.live_events.map (fun p =>
      if p.1 = live_event_name then
        (p.1, { p.2 with resource_state := LiveEventResourceState.stopped })
      else p),
    live_outputs :=
      if remove_outputs_on_stop then
        s.live_outputs.filter (fun p => decide (p.1 ≠ live_event_name))
      else s.live_outputs }

/-- Effect of `client.live_events.delete`. -/
def live_events_delete_op (s : AccountState) (live_event_name : String) :
    AccountState :=
  { s with live_events :=
      s.live_events.filter (fun p => decide (p.1 ≠ live_event_name)) }

/-! ## Script helper methods -/

/-- Shallow embedding of `create_input_asset`
(AnalyzeVideoAndAudios/Program.py lines 49–98 and
EncryptWithAES/Program.py lines 84–133; identical bodies): create the
asset, obtain a SAS URL for its container
(`response.asset_container_sas_urls[0]` raises IndexError when the
response holds none), and upload the local file into the container.  The
URL parsing and local-path computation are pure string work not read
afterwards. -/
def create_input_assetM (env : Env) (asset_name file_to_upload : String) :
    M Asset := do
  let asset ← assetsCreateOrUpdateM env asset_name
  let sas_urls ← assetsListContainerSasM env asset_name
  match sas_urls.head? with
  | none => raise Asset (PyExc.other "IndexError")
  | some _sasUri => do
    callRemote env (Call.blob_create_from_path file_to_upload)
    pure asset

/-- Shallow embedding of `create_output_asset`
(AnalyzeVideoAndAudios/Program.py lines 100–124 and
EncryptWithAES/Program.py lines 135–159; identical bodies): fetch the
asset; when it exists, print the two warning lines and create the asset
under `asset_name + str(uniqueness)` — where `uniqueness = uuid.uuid1`
binds the function object, see `Env.uuid1_repr` — and when the fetch
returns null, create it under `asset_name` itself. -/
def create_output_assetM (env : Env) (asset_name : String) : M Asset := do
  let output_asset ← assetsGetM env asset_name
  match output_asset with
  | some _ => do
    let output_asset_name := asset_name ++ env.uuid1_repr
    printLine ("Warning – found an existing Asset with name = " ++
      asset_name)
    printLine ("Creating an Asset with this name instead: " ++
      output_asset_name)
    assetsCreateOrUpdateM env output_asset_name
  | none => assetsCreateOrUpdateM env asset_name

/-- Shallow embedding of `get_or_create_transform`
(AnalyzeVideoAndAudios/Program.py lines 126–151): fetch the transform;
`if not transform:` — a null result is falsy, a transform record truthy —
create it with the single output `[TransformOutput(preset = preset)]`;
otherwise return the fetched transform with no create call. -/
def get_or_create_transformM (env : Env) (transform_name : String)
    (preset : Preset) : M Transform := do
  let transform ← transformsGetM env transform_name
  match transform with
  | some t => pure t
  | none => transformsCreateOrUpdateM env transform_name [⟨preset⟩]

/-- Shallow embedding of the encrypt script's `get_or_create_transform`
(EncryptWithAES/Program.py lines 161–190): the same body with the preset
built inside the create branch as
`BuiltInStandardEncoderPreset(preset_name =
EncoderNamedPreset.adaptive_streaming)`. -/
def get_or_create_transform_encryptM (env : Env) (transform_name : String) :
    M Transform :=
  get_or_create_transformM env transform_name
    (Preset.builtInStandardEncoder "AdaptiveStreaming")

/-- Shallow embedding of `submit_job` (identical in the analyze and
encrypt scripts): builds the `Job(input = JobInputAsset(...), outputs =
[JobOutputAsset(...)])` payload — pure record construction — and issues
`jobs.create`. -/
def submit_jobM (env : Env)
    (transform_name job_name _inputasset_name _outputasset_name : String) :
    M Unit :=
  jobsCreateM env transform_name job_name

/-- Rendering of a `JobState` value under `'{}'.format(...)`. -/
def jobStateString : JobState → String
  | JobState.queued => "JobState.queued"
  | JobState.scheduled => "JobState.scheduled"
  | JobState.processing => "JobState.processing"
  | JobState.finished => "JobState.finished"
  | JobState.error => "JobState.error"
  | JobState.canceled => "JobState.canceled"

/-- The console lines of one poll-loop iteration (lines 204–212 of the
analyze script, 243–251 of the encrypt script): the job state and, per
output, its state and — when processing — its progress. -/
def job_iteration_lines (j : Job) : List String :=
  ("Job is " ++ jobStateString j.state) ::
    j.outputs.enum.flatMap (fun p =>
      (" JobOutput[" ++ toString p.1 ++ "] is " ++
          jobStateString p.2.state) ::
        (if p.2.state = JobState.processing then
          ["  Progress: " ++ toString p.2.progress]
        else []))

/-- The poll loop of `wait_for_job_to_finish` transcribed over the
remaining fetch results (cf. `wait_for_job_to_finish` for the loop alone):
each iteration issues `jobs.get` — raising per the environment — prints
the iteration lines, exits with the job when terminal, and otherwise
sleeps `SleepIntervalMs` seconds; an exhausted fetch list means the loop
is still running. -/
def wait_loopM (env : Env) (transform_name job_name : String) :
    List Job → M Job
  | [] => diverge Job
  | j :: rest => do
    callRemote env (Call.jobs_get transform_name job_name)
    printLines (job_iteration_lines j)
    if j.isTerminal then pure j
    else do
      recordCall (Call.sleep SleepIntervalMs)
      wait_loopM env transform_name job_name rest

/-- Shallow embedding of `wait_for_job_to_finish` as invoked inside `run`:
the loop over the environment's successive fetch results. -/
def wait_for_job_to_finishM (env : Env) (transform_name job_name : String) :
    M Job :=
  wait_loopM env transform_name job_name env.job_fetches

/-- Shallow embedding of `download_output_asset`
(AnalyzeVideoAndAudios/Program.py lines 221–258): fetch a read SAS for
the asset container (IndexError when the response holds no URL), print
the download banner, list the blobs in the container and download each.
The local directory creation is not modelled. -/
def download_output_assetM (env : Env)
    (asset_name output_folder_name : String) : M Unit := do
  let sas_urls ← assetsListContainerSasM env asset_name
  match sas_urls.head? with
  | none => raise Unit (PyExc.other "IndexError")
  | some _url => do
    printLine ("Downloading output results to " ++ output_folder_name ++
      "/" ++ asset_name)
    callRemote env Call.blob_list
    forEachM env.blobs (fun blob => do
      printLine ("Downloading Blob: " ++ blob)
      callRemote env (Call.blob_get_to_path blob))
    printLine "Download complete."

/-- Shallow embedding of the analyze script's `clean_up`
(AnalyzeVideoAndAudios/Program.py lines 260–276): list the jobs under the
transform and delete each, then list the assets in the account and delete
each. -/
def clean_upM (env : Env) (transform_name : String) : M Unit := do
  let jobs ← jobsListM env transform_name
  forEachM jobs (fun job => jobsDeleteM env transform_name job)
  let assets ← assetsListM env
  forEachM assets (fun asset => assetsDeleteM env asset.name)

/-- Shallow embedding of the encrypt script's `clean_up`
(EncryptWithAES/Program.py lines 343–366): list the jobs under the
transform and delete each, list the streaming locators in the account and
delete each, list the assets in the account and delete each, then delete
the named content key policy. -/
def clean_up_encryptM (env : Env)
    (transform_name content_key_policy_name : String) : M Unit := do
  let jobs ← jobsListM env transform_name
  forEachM jobs (fun job => jobsDeleteM env transform_name job)
  let locators ← streamingLocatorsListM env
  forEachM locators (fun locator => streamingLocatorsDeleteM env locator)
  let assets ← assetsListM env
  forEachM assets (fun asset => assetsDeleteM env asset.name)
  contentKeyPoliciesDeleteM env content_key_policy_name

/-- Shallow embedding of `get_or_create_content_key_policy`
(EncryptWithAES/Program.py lines 54–81): fetch the policy; `if policy is
None:` build the token-restriction option — pure record construction —
and create it; otherwise return the fetched policy. -/
def get_or_create_content_key_policyM (env : Env)
    (content_key_policy_name : String) : M ContentKeyPolicy := do
  let policy ← contentKeyPoliciesGetM env content_key_policy_name
  match policy with
  | some p => pure p
  | none => contentKeyPoliciesCreateOrUpdateM env content_key_policy_name

/-- Shallow embedding of `create_streaming_locator`
(EncryptWithAES/Program.py lines 259–281): builds the
`StreamingLocator(asset_name, 'Predefined_ClearKey',
default_content_key_policy_name)` payload and issues
`streaming_locators.create`. -/
def create_streaming_locatorM (env : Env)
    (asset_name locator_name _content_key_policy_name : String) :
    M StreamingLocator :=
  streamingLocatorsCreateM env locator_name asset_name

/-- `urllib.parse.urlunparse((https, host, path, None, None, None))`. -/
def urlunparse_https (host path : String) : String :=
  "https://" ++ host ++ path

/-- The `for path in paths.streaming_paths` loop of
`get_dash_streaming_url` (EncryptWithAES/Program.py lines 330–339): every
iteration reads `streaming_endpoint.host_name` with no null check
(AttributeError on a null endpoint), and on the DASH entry takes
`path.paths[0]` (IndexError on an empty path list) and rewrites
`dash_path`. -/
def dash_path_loopM (streaming_endpoint : Option StreamingEndpoint) :
    List StreamingPath → String → M String
  | [], dash_path => pure dash_path
  | sp :: rest, dash_path => do
    match streaming_endpoint with
    | none => raise String (PyExc.other "AttributeError")
    | some e =>
      if sp.streaming_protocol = StreamingProtocol.dash then
        match sp.paths.head? with
        | none => raise String (PyExc.other "IndexError")
        | some p =>
          dash_path_loopM streaming_endpoint rest
            (urlunparse_https e.host_name p)
      else dash_path_loopM streaming_endpoint rest dash_path

/-- Shallow embedding of `get_dash_streaming_url`
(EncryptWithAES/Program.py lines 307–341): fetch the "default" streaming
endpoint, start it when it exists and is not running, list the locator's
paths, and fold the DASH entry into a playback URL (initially `''`). -/
def get_dash_streaming_urlM (env : Env) (locator_name : String) :
    M String := do
  let streaming_endpoint ← streamingEndpointsGetM env "default"
  match streaming_endpoint with
  | some e =>
    if e.resource_state ≠ StreamingEndpointResourceState.running then
      streamingEndpointsStartM env "default"
    else pure ()
  | none => pure ()
  let paths ← streamingLocatorsListPathsM env locator_name
  dash_path_loopM streaming_endpoint paths ""

/-! ## Live script cleanup helpers (Live/Program.py lines 117–186)

The cleanup helpers are embedded as pure state functions returning the
account state afterwards together with the calls issued; their own remote
calls are modelled as succeeding. -/

/-- Shallow embedding of `clean_up_live_event_and_live_output`
(Live/Program.py lines 117–140): fetch the live event; when the fetch
returns null do nothing further; when it exists, first — only in the
running state — stop it with `remove_outputs_on_stop = True` and sleep 10
seconds, then delete it. -/
def clean_up_live_event_and_live_output (s : AccountState)
    (live_event_name : String) : AccountState × List Call :=
  match live_events_get_op s live_event_name with
  | none => (s, [Call.live_events_get live_event_name])
  | some live_event =>
    if live_event.resource_state = LiveEventResourceState.running then
      (live_events_delete_op
          (live_events_stop_op s live_event_name true) live_event_name,
        [Call.live_events_get live_event_name,
         Call.live_events_stop live_event_name true,
         Call.sleep 10,
         Call.live_events_delete live_event_name])
    else
      (live_events_delete_op s live_event_name,
        [Call.live_events_get live_event_name,
         Call.live_events_delete live_event_name])

/-- Effect of `client.streaming_locators.delete`, as a pure state
function. -/
def streaming_locators_delete_op (s : AccountState)
    (locator_name : String) : AccountState :=
  { s with streaming_locators :=
      s.streaming_locators.filter (fun a => decide (a ≠ locator_name)) }

/-- Effect of `client.assets.delete`, as a pure state function. -/
def assets_delete_op (s : AccountState) (asset_name : String) :
    AccountState :=
  { s with assets := s.assets.filter (fun a => decide (a ≠ asset_name)) }

/-- Shallow embedding of `clean_up_locator_and_asset` (Live/Program.py
lines 142–159): delete the streaming locator, then delete the archive
asset. -/
def clean_up_locator_and_asset (s : AccountState)
    (locator_name asset_name : String) : AccountState × List Call :=
  (assets_delete_op (streaming_locators_delete_op s locator_name)
      asset_name,
    [Call.streaming_locators_delete locator_name,
     Call.assets_delete asset_name])

/-- One invocation of `clean_up_live_event_and_live_output` from within
the live script's `run`, counted by `cleanup_live_event_invocations`. -/
def cleanUpLiveEventM (live_event_name : String) : M Unit := fun st =>
  let r := clean_up_live_event_and_live_output st.state live_event_name
  (BlockResult.ok (),
    { st with
        state := r.1
        calls := st.calls ++ r.2
        cleanup_live_event_invocations :=
          st.cleanup_live_event_invocations + 1 })

/-- One invocation of `clean_up_locator_and_asset` from within the live
script's `run`, counted by `cleanup_locator_asset_invocations`. -/
def cleanUpLocatorAndAssetM (locator_name asset_name : String) :
    M Unit := fun st =>
  let r := clean_up_locator_and_asset st.state locator_name asset_name
  (BlockResult.ok (),
    { st with
        state := r.1
        calls := st.calls ++ r.2
        cleanup_locator_asset_invocations :=
          st.cleanup_locator_asset_invocations + 1 })

/-! ## The three `run` methods -/

/-- Python `try: body / except ApiErrorException as ex: handler /
finally: fin`, the shape of Live/Program.py `run`: the handler runs only
for `ApiErrorException`; the `finally` block runs on every completion of
the try/except part — normal, caught, or uncaught exception, though not
when the body never completes — and an exception the `finally` block
itself raises replaces a pending one. -/
def tryExceptApiFinally (body : M Unit) (handler : String → M Unit)
    (fin : M Unit) : M Unit := fun st =>
  match body st with
  | (BlockResult.divergent, st1) => (BlockResult.divergent, st1)
  | (BlockResult.ok _, st1) => fin st1
  | (BlockResult.exc (PyExc.apiError m), st1) =>
    match handler m st1 with
    | (BlockResult.ok _, st2) => fin st2
    | (BlockResult.exc e, st2) =>
      match fin st2 with
      | (BlockResult.ok _, st3) => (BlockResult.exc e, st3)
      | r => r
    | (BlockResult.divergent, st2) => (BlockResult.divergent, st2)
  | (BlockResult.exc e, st1) =>
    match fin st1 with
    | (BlockResult.ok _, st2) => (BlockResult.exc e, st2)
    | r => r

/-- Rendering of a `StreamingPolicyStreamingProtocol` value under
`'{}'.format(...)`. -/
def protoString : StreamingProtocol → String
  | StreamingProtocol.dash => "Dash"
  | StreamingProtocol.hls => "Hls"
  | StreamingProtocol.smoothStreaming => "SmoothStreaming"
  | StreamingProtocol.download => "Download"

/-- The streaming-paths fold of Live/Program.py `run` (lines 253–265):
over each streaming path with a nonempty path list, append the
protocol/scheme banner and the path URL to `string_builder`, and on the
DASH entry rewrite `player_path`; returns
`(string_builder, player_path)`, initially `('', '')`. -/
def live_paths_fold (host : String) (paths : List StreamingPath) :
    String × String :=
  paths.foldl (fun acc sp =>
    if sp.paths.length > 0 then
      let path := sp.paths.headI
      let line := "\t" ++ protoString sp.streaming_protocol ++ "-" ++
        sp.encryption_scheme ++ "\t\t" ++ urlunparse_https host path
      let player :=
        if sp.streaming_protocol = StreamingProtocol.dash then
          urlunparse_https host path
        else acc.2
      (acc.1 ++ line, player)
    else acc) ("", "")

/-- The tail of the live script's `try` block (lines 267–280): when
`string_builder` is nonempty, print the player URL and the
experimentation notice, wait for input, invoke the in-body cleanup, print
the deletion notice and wait for input again; otherwise print the
no-paths notices.  `folded` is `(string_builder, player_path)`. -/
def live_run_publish_block (env : Env) (folded : String × String)
    (live_event_name : String) : M Unit :=
  if folded.1.length > 0 then do
    printLine "Open the following URL to playback the published,recording LiveOutput in the Azure Media Player"
    printLine ("\t https://ampdemo.azureedge.net/?url=" ++ folded.2 ++
      "&heuristicprofile=lowlatency")
    printLine "Continue experimenting with the stream until you are ready to finish."
    promptM env "Press enter to stop the LiveOutput..."
    cleanUpLiveEventM live_event_name
    printLine "The LiveOutput and LiveEvent are now deleted.  The event is available as an archive and can still be streamed."
    promptM env "Press enter to finish cleanup..."
  else do
    printLine "No Streaming Paths were detected.  Has the Stream been started?"
    printLine "Cleaning up and Exiting..."

/-- The `try` block of Live/Program.py `run` (lines 193–280).  The name
assignments at its head are pure string computations from
`env.uniqueness`; `create_live_event` (lines 46–115) contributes the
`mediaservices.get` and `live_events.create(..., auto_start = True)`
calls.  The poll loop at lines 203–207 re-fetches the live event, and its
fetch result is the state lookup, which no loop iteration changes: the
loop exits at the first fetch when it is non-null and otherwise never
exits (cf. `live_event_poll` for the loop body over arbitrary fetch
sequences). -/
def live_run_body (env : Env) : M Unit := do
  let uniqueness := env.uniqueness.take 13
  let live_event_name := "liveevent-" ++ uniqueness
  let asset_name := "archiveasset-" ++ uniqueness
  let live_output_name := "liveoutput-" ++ uniqueness
  let streaming_locator_name := "streaminglocator-" ++ uniqueness
  let streaming_endpoint_name := "default"
  let _location ← mediaservicesGetM env
  printLine ("Creating a live event named " ++ live_event_name)
  printLine "Creating the LiveEvent, be patient this can take time..."
  let _created ← liveEventsCreateM env live_event_name
  let fetched ← liveEventsGetM env live_event_name
  let live_event ← match fetched with
    | some ev => pure ev
    | none => diverge LiveEvent
  let ingest_url ← match live_event.input_endpoint_urls.head? with
    | some u => pure u
    | none => raise String (PyExc.other "IndexError")
  printLine ("The ingest url to configure the on premise encoderwith is: "
    ++ ingest_url)
  let preview_endpoint ← match live_event.preview_endpoint_urls.head? with
    | some u => pure u
    | none => raise String (PyExc.other "IndexError")
  printLine ("The preview url is " ++ preview_endpoint)
  printLine "Open the live preview in your browser and use the Azure Media Player to monitor the preview playback:"
  printLine ("\thttps://ampdemo.azureedge.net/?url=" ++ preview_endpoint ++
    "&heuristicprofile=lowlatency")
  printLine ("Creating an asset named " ++ asset_name)
  let asset ← assetsCreateOrUpdateM env asset_name
  printLine ("Creating a live output named " ++ live_output_name)
  liveOutputsCreateM env live_event_name live_output_name
  printLine ("Creating a streaming locator named " ++
    streaming_locator_name)
  let _locator ← streamingLocatorsCreateM env streaming_locator_name
    asset.name
  let endpoint_fetched ← streamingEndpointsGetM env streaming_endpoint_name
  let streaming_endpoint ← match endpoint_fetched with
    | some e => pure e
    | none => raise StreamingEndpoint (PyExc.other "AttributeError")
  if streaming_endpoint.resource_state ≠
      StreamingEndpointResourceState.running then
    printLine "Streaming Endpoint was Stopped, restarting now.."
    streamingEndpointsStartM env streaming_endpoint_name
  let paths ← streamingLocatorsListPathsM env streaming_locator_name
  printLine "The urls to stream the output from a client:"
  let folded := live_paths_fold streaming_endpoint.host_name paths
  live_run_publish_block env folded live_event_name

/-- Shallow embedding of Live/Program.py `run` (lines 188–289): the body
under `try`, an `except ApiErrorException` arm that prints the banner and
the exception, and a `finally` block invoking
`clean_up_live_event_and_live_output` and then
`clean_up_locator_and_asset` on the names computed from
`env.uniqueness`. -/
def live_run (env : Env) (s : AccountState) : BlockResult Unit × RunSt :=
  tryExceptApiFinally (live_run_body env)
    (fun m => do
      printLine "Hit ApiErrorException"
      printLine m)
    (do
      cleanUpLiveEventM ("liveevent-" ++ env.uniqueness.take 13)
      cleanUpLocatorAndAssetM
        ("streaminglocator-" ++ env.uniqueness.take 13)
        ("archiveasset-" ++ env.uniqueness.take 13))
    (initRunSt s)

/-- The execution state after the live script's `finally` block runs over
state `st`: both cleanup helpers applied in order, their calls appended,
each invocation counter incremented once. -/
def live_finally_state (env : Env) (st : RunSt) : RunSt :=
  let r1 := clean_up_live_event_and_live_output st.state
    ("liveevent-" ++ env.uniqueness.take 13)
  let r2 := clean_up_locator_and_asset r1.1
    ("streaminglocator-" ++ env.uniqueness.take 13)
    ("archiveasset-" ++ env.uniqueness.take 13)
  { st with
      state := r2.1
      calls := st.calls ++ r1.2 ++ r2.2
      cleanup_live_event_invocations :=
        st.cleanup_live_event_invocations + 1
      cleanup_locator_asset_invocations :=
        st.cleanup_locator_asset_invocations + 1 }

/-- Shallow embedding of the analyze script's `run`
(AnalyzeVideoAndAudios/Program.py lines 278–319), which contains no
exception handling: an exception raised at any call propagates out of
`run`.  (The `clean_up` method of this script is not called by `run`.) -/
def analyze_run (env : Env) (transform_name : String) (s : AccountState) :
    BlockResult Unit × RunSt :=
  (do
    let uniqueness := env.uniqueness
    let job_name := "job-" ++ uniqueness
    let _locator_name := "locator-" ++ uniqueness
    let output_asset_name := "output-" ++ uniqueness
    let input_asset_name := "input-" ++ uniqueness
    let _transform ← get_or_create_transformM env transform_name
      (Preset.videoAnalyzer "en-US")
    let _input ← create_input_assetM env input_asset_name "ignite.mp4"
    let output_asset ← create_output_assetM env output_asset_name
    submit_jobM env transform_name job_name input_asset_name
      output_asset.name
    let job ← wait_for_job_to_finishM env transform_name job_name
    if job.state = JobState.finished then
      printLine "Job finished."
      download_output_assetM env output_asset.name "output"
      printLine "Done."
    : M Unit) (initRunSt s)

/-- Shallow embedding of the encrypt script's `run`
(EncryptWithAES/Program.py lines 368–428), which contains no exception
handling: an exception raised at any call propagates out of `run`.  The
final printed playback URL carries the JWT token, whose content is the
separately modelled `run_token`. -/
def encrypt_run (env : Env) (p : EncryptProgram) (transform_name : String)
    (s : AccountState) : BlockResult Unit × RunSt :=
  (do
    let uniqueness := env.uniqueness
    let job_name := "job-" ++ uniqueness
    let locator_name := "locator-" ++ uniqueness
    let output_asset_name := "output-" ++ uniqueness
    let input_asset_name := "input-" ++ uniqueness
    let _transform ← get_or_create_transform_encryptM env transform_name
    let _input ← create_input_assetM env input_asset_name "ignite.mp4"
    let output_asset ← create_output_assetM env output_asset_name
    submit_jobM env transform_name job_name input_asset_name
      output_asset.name
    let job ← wait_for_job_to_finishM env transform_name job_name
    if job.state = JobState.finished then do
      printLine "Job finished."
      let _policy ← get_or_create_content_key_policyM env
        p.content_key_policy_name
      let locator ← create_streaming_locatorM env output_asset.name
        locator_name p.content_key_policy_name
      let key_identifier ← match locator.content_keys.head? with
        | some k => pure k
        | none => raise String (PyExc.other "IndexError")
      let _token := run_token p env.now key_identifier
      let dash_path ← get_dash_streaming_urlM env locator.name
      printLine "Copy and paste the following URL in your browser to play back the file in the Azure Media Player."
      printLine "Note, the player is set to use the AES token and the Bearer token is specified. "
      printLine ""
      printLine ("https://ampdemo.azureedge.net/?url=" ++ dash_path ++
        "&aes=true&aestoken=Bearer%3D<token>")
      printLine ""
    else pure ()
    printLine "clean up ..."
    promptM env "press any key to continue"
    clean_up_encryptM env transform_name p.content_key_policy_name
    : M Unit) (initRunSt s)

/-! ## Concrete instances for evaluation -/

/-- An account holding no resources. -/
def emptyAccount : AccountState :=
  { assets := []
    transforms := []
    jobs := []
    streaming_locators := []
    content_key_policies := []
    streaming_endpoints := []
    live_events := []
    live_outputs := [] }

/-- An environment in which every call returns normally, with simple
concrete data. -/
def defaultEnv : Env :=
  { behave := fun _ => CallOutcome.ok
    uniqueness := "10000000-1000-"
    uuid1_repr := "<function uuid1 at 0x0001>"
    now := 0
    asset_container_sas_urls := ["https://sa.blob.core.windows.net/c?sas"]
    blobs := []
    job_fetches := [⟨JobState.finished, []⟩]
    streaming_paths := []
    locator_content_key_ids := ["key-id-0"]
    ingest_urls := ["rtmp://ingest.example/live"]
    preview_urls := ["https://preview.example/"]
    account_location := "westus" }

end MediaServices

namespace MediaServices

/-! ## Theorems for the poll loops -/

/-- **C1.** For every sequence of job records returned by successive
`jobs.get` calls that eventually contains one whose state is finished,
error, or canceled, `wait_for_job_to_finish` (identical in the analyze and
the encrypt script) terminates at the first such fetch, having slept a
fixed 5-second interval between consecutive fetches (5·i seconds in total
when the first terminal record is the i-th fetch, counting from zero), and
returns that job, whose state is terminal. -/
theorem wait_for_job_to_finish_terminates (fetches : List Job)
    (h : ∃ j ∈ fetches, j.isTerminal = true) :
    ∃ i : Fin fetches.length,
      wait_for_job_to_finish fetches = some (fetches.get i, 5 * i.val) ∧
      (fetches.get i).isTerminal = true ∧
      ∀ k : Fin fetches.length, k.val < i.val →
        (fetches.get k).isTerminal = false := by
  induction fetches with
  | nil => simp at h
  | cons j rest ih =>
    by_cases hj : j.isTerminal = true
    · refine ⟨⟨0, by simp⟩, ?_, ?_, ?_⟩
      · simp [wait_for_job_to_finish, hj]
      · simpa using hj
      · intro k hk; simp at hk
    · have hrest : ∃ x ∈ rest, x.isTerminal = true := by
        rcases h with ⟨x, hx, hxt⟩
        rcases List.mem_cons.mp hx with rfl | hx'
        · exact absurd hxt hj
        · exact ⟨x, hx', hxt⟩
      rcases ih hrest with ⟨i, heq, hterm, hbefore⟩
      refine ⟨⟨i.val + 1, by simpa using Nat.succ_lt_succ i.isLt⟩, ?_, ?_, ?_⟩
      · simp only [wait_for_job_to_finish, hj, if_false, heq]
        have : (5 : Nat) * (i.val + 1) = 5 * i.val + SleepIntervalMs := by
          simp [SleepIntervalMs]; ring
        simp [this]
      · simpa using hterm
      · intro k hk
        match k with
        | ⟨0, _⟩ => simpa using Bool.eq_false_iff.mpr hj
        | ⟨m + 1, hm⟩ =>
          have hm' : m < rest.length := by simpa using hm
          have := hbefore ⟨m, hm'⟩ (by simpa using hk)
          simpa using this

/-- Witness for C1: with a processing fetch followed by a finished fetch,
the loop returns the finished job after one 5-second sleep. -/
theorem wait_for_job_to_finish_terminates_witness :
    ∃ i : Fin ([⟨JobState.processing, []⟩, ⟨JobState.finished, []⟩] :
        List Job).length,
      wait_for_job_to_finish
          [⟨JobState.processing, []⟩, ⟨JobState.finished, []⟩] =
        some (([⟨JobState.processing, []⟩, ⟨JobState.finished, []⟩] :
          List Job).get i, 5 * i.val) ∧
      (([⟨JobState.processing, []⟩, ⟨JobState.finished, []⟩] :
        List Job).get i).isTerminal = true ∧
      ∀ k : Fin ([⟨JobState.processing, []⟩, ⟨JobState.finished, []⟩] :
          List Job).length, k.val < i.val →
        (([⟨JobState.processing, []⟩, ⟨JobState.finished, []⟩] :
          List Job).get k).isTerminal = false :=
  wait_for_job_to_finish_terminates
    [⟨JobState.processing, []⟩, ⟨JobState.finished, []⟩]
    ⟨⟨JobState.finished, []⟩, by decide, by decide⟩

/-- **C4.** When no fetched job ever reports a terminal state, the polling
loop never returns: however many non-terminal fetches the loop observes, it
is still running (the embedding returns `none` on every such finite fetch
list), and the loop body contains no backoff, timeout, attempt bound, or
cancellation — its only exit is the terminal-state `break`. -/
theorem wait_for_job_to_finish_diverges (fetches : List Job)
    (h : ∀ j ∈ fetches, j.isTerminal = false) :
    wait_for_job_to_finish fetches = none := by
  induction fetches with
  | nil => rfl
  | cons j rest ih =>
    have hj : j.isTerminal = false := h j (List.mem_cons_self j rest)
    have hrest := ih fun x hx => h x (List.mem_cons_of_mem j hx)
    simp [wait_for_job_to_finish, hj, hrest]

/-- Witness for C4: a run of three processing fetches has not returned. -/
theorem wait_for_job_to_finish_diverges_witness :
    wait_for_job_to_finish
      [⟨JobState.processing, []⟩, ⟨JobState.queued, []⟩,
        ⟨JobState.processing, []⟩] = none :=
  wait_for_job_to_finish_diverges _ (by decide)

/-- **C8.** The live-event polling loop in `Live/Program.py` `run`
terminates exactly when `live_events.get` returns a non-null resource,
sleeping 5 seconds between fetches: if every fetch returns null the loop is
still running after all of them, and if the i-th fetch (counting from zero)
is the first non-null one the loop exits there with that live event having
slept 5·i seconds. -/
theorem live_event_poll_spec (fetches : List (Option LiveEvent)) :
    ((∀ f ∈ fetches, f = none) → live_event_poll fetches = none) ∧
    (∀ i : Fin fetches.length,
      (∀ k : Fin fetches.length, k.val < i.val → fetches.get k = none) →
      ∀ ev, fetches.get i = some ev →
        live_event_poll fetches = some (ev, 5 * i.val)) := by
  induction fetches with
  | nil =>
    refine ⟨fun _ => rfl, fun i => absurd i.isLt (by simp)⟩
  | cons f rest ih =>
    constructor
    · intro hall
      have hf : f = none := hall f (List.mem_cons_self f rest)
      have := ih.1 fun x hx => hall x (List.mem_cons_of_mem f hx)
      simp [live_event_poll, hf, this]
    · intro i hbefore ev hi
      match i with
      | ⟨0, _⟩ =>
        simp only [List.get] at hi
        simp [live_event_poll, hi]
      | ⟨m + 1, hm⟩ =>
        have hf : f = none := by
          have := hbefore ⟨0, by simp⟩ (by simp)
          simpa using this
        have hm' : m < rest.length := by simpa using hm
        have hbefore' : ∀ k : Fin rest.length, k.val < m →
            rest.get k = none := by
          intro k hk
          have := hbefore ⟨k.val + 1, by simpa using Nat.succ_lt_succ k.isLt⟩
            (by simpa using Nat.succ_lt_succ hk)
          simpa using this
        have hi' : rest.get ⟨m, hm'⟩ = some ev := by simpa using hi
        have := ih.2 ⟨m, hm'⟩ hbefore' ev hi'
        have harith : (5 : Nat) * (m + 1) = 5 * m + 5 := by ring
        simp [live_event_poll, hf, this, harith]

/-- Witness for C8: a null fetch followed by a non-null fetch of a running
live event exits at the second fetch after one 5-second sleep. -/
theorem live_event_poll_spec_witness :
    live_event_poll [none, some ⟨LiveEventResourceState.running, [], []⟩] =
      some (⟨LiveEventResourceState.running, [], []⟩, 5 * (1 : Nat)) :=
  (live_event_poll_spec [none, some ⟨LiveEventResourceState.running, [], []⟩]).2
    ⟨1, by decide⟩ (by decide) ⟨LiveEventResourceState.running, [], []⟩ (by decide)

/-- **C2.** `get_token`, as invoked by the encrypt script's `run`, returns a
JWT signed with HS256 under the per-run symmetric signing key
(`self.token_sign_key`), whose payload maps `'iss'` to the configured
issuer, `'aud'` to the configured audience, the configured
content-key-identifier claim type to the given key identifier, `'nbf'` to
five minutes (300 seconds) before the current time, and `'exp'` to one
hour (3600 seconds) after the current time.  The hypotheses record that
the configured claim type is not itself one of the four fixed claim names
(otherwise the Python dict literal would collapse the colliding keys). -/
theorem run_token_spec (p : EncryptProgram) (now : Int) (key_identifier : String)
    (h1 : p.content_key_identifier_claim_type ≠ "iss")
    (h2 : p.content_key_identifier_claim_type ≠ "aud")
    (h3 : p.content_key_identifier_claim_type ≠ "nbf")
    (h4 : p.content_key_identifier_claim_type ≠ "exp") :
    (run_token p now key_identifier).alg = "HS256" ∧
    (run_token p now key_identifier).key = p.token_sign_key ∧
    (run_token p now key_identifier).payload "iss" =
      some (ClaimValue.str p.issuer) ∧
    (run_token p now key_identifier).payload "aud" =
      some (ClaimValue.str p.audience) ∧
    (run_token p now key_identifier).payload
        p.content_key_identifier_claim_type =
      some (ClaimValue.str key_identifier) ∧
    (run_token p now key_identifier).payload "nbf" =
      some (ClaimValue.time (now - 300)) ∧
    (run_token p now key_identifier).payload "exp" =
      some (ClaimValue.time (now + 3600)) := by
  refine ⟨rfl, rfl, ?_, ?_, ?_, ?_, ?_⟩
  · simp [run_token, get_token, payloadInsert, Ne.symm h1]
  · simp [run_token, get_token, payloadInsert, Ne.symm h2]
  · simp [run_token, get_token, payloadInsert, h3, h4]
  · have h : now - 300 = now + (-5) * 60 := by ring
    rw [h]
    simp [run_token, get_token, payloadInsert]
  · have h : now + 3600 = now + 1 * 3600 := by ring
    rw [h]
    simp [run_token, get_token, payloadInsert]

/-- Witness for C2: a concrete configuration with the standard
content-key-identifier claim type URN, evaluated at clock value 1000. -/
theorem run_token_spec_witness :
    (run_token
        ⟨"myIssuer", "myAudience",
          "urn:microsoft:azure:mediaservices:contentkeyidentifier",
          "myPolicy", List.replicate 40 7, by simp⟩
        1000 "key-id-1").alg = "HS256" ∧
    (run_token
        ⟨"myIssuer", "myAudience",
          "urn:microsoft:azure:mediaservices:contentkeyidentifier",
          "myPolicy", List.replicate 40 7, by simp⟩
        1000 "key-id-1").key = List.replicate 40 7 ∧
    (run_token
        ⟨"myIssuer", "myAudience",
          "urn:microsoft:azure:mediaservices:contentkeyidentifier",
          "myPolicy", List.replicate 40 7, by simp⟩
        1000 "key-id-1").payload "iss" = some (ClaimValue.str "myIssuer") ∧
    (run_token
        ⟨"myIssuer", "myAudience",
          "urn:microsoft:azure:mediaservices:contentkeyidentifier",
          "myPolicy", List.replicate 40 7, by simp⟩
        1000 "key-id-1").payload "aud" = some (ClaimValue.str "myAudience") ∧
    (run_token
        ⟨"myIssuer", "myAudience",
          "urn:microsoft:azure:mediaservices:contentkeyidentifier",
          "myPolicy", List.replicate 40 7, by simp⟩
        1000 "key-id-1").payload
        "urn:microsoft:azure:mediaservices:contentkeyidentifier" =
      some (ClaimValue.str "key-id-1") ∧
    (run_token
        ⟨"myIssuer", "myAudience",
          "urn:microsoft:azure:mediaservices:contentkeyidentifier",
          "myPolicy", List.replicate 40 7, by simp⟩
        1000 "key-id-1").payload "nbf" = some (ClaimValue.time 700) ∧
    (run_token
        ⟨"myIssuer", "myAudience",
          "urn:microsoft:azure:mediaservices:contentkeyidentifier",
          "myPolicy", List.replicate 40 7, by simp⟩
        1000 "key-id-1").payload "exp" = some (ClaimValue.time 4600) := by
  have h := run_token_spec
    ⟨"myIssuer", "myAudience",
      "urn:microsoft:azure:mediaservices:contentkeyidentifier",
      "myPolicy", List.replicate 40 7, by simp⟩
    1000 "key-id-1" (by decide) (by decide) (by decide) (by decide)
  simpa using h

/-! ## Execution lemmas for the monadic embedding -/

theorem M_bind_apply {α β : Type} (x : M α) (f : α → M β) (st : RunSt) :
    (x >>= f) st =
      match x st with
      | (BlockResult.ok a, st') => f a st'
      | (BlockResult.exc e, st') => (BlockResult.exc e, st')
      | (BlockResult.divergent, st') => (BlockResult.divergent, st') := rfl

theorem M_pure_apply {α : Type} (a : α) (st : RunSt) :
    (pure a : M α) st = (BlockResult.ok a, st) := rfl

theorem callRemote_apply_ok {env : Env} {c : Call} (st : RunSt)
    (h : env.behave c = CallOutcome.ok) :
    callRemote env c st =
      (BlockResult.ok (), { st with calls := st.calls ++ [c] }) := by
  simp [callRemote, h]

/-- Appending a nonempty string yields a different string. -/
theorem append_ne_of_ne_empty (a s : String) (h : s ≠ "") : a ++ s ≠ a := by
  intro he
  apply h
  have h2 := congrArg String.length he
  rw [String.length_append] at h2
  have hs : s.length = 0 := by omega
  exact String.ext (List.length_eq_zero.mp hs)

/-- **C3.** `create_output_asset` (identical in the analyze and encrypt
scripts), run under an environment in which the calls it issues return
normally: when the preceding `assets.get` finds an existing asset under
the requested name, the asset is created — and returned — under the
different name obtained by appending the generated suffix
(`str(uniqueness)`, nonempty) to the requested name, with the two warning
lines printed; when `assets.get` returns null, the asset is created under
exactly the requested name and nothing is printed. -/
theorem create_output_asset_spec (env : Env) (st : RunSt)
    (asset_name : String)
    (henv : ∀ c, env.behave c = CallOutcome.ok)
    (hrepr : env.uuid1_repr ≠ "") :
    (asset_name ∈ st.state.assets →
      (create_output_assetM env asset_name st).1 =
        BlockResult.ok ⟨asset_name ++ env.uuid1_repr⟩ ∧
      asset_name ++ env.uuid1_repr ≠ asset_name ∧
      (create_output_assetM env asset_name st).2.calls =
        st.calls ++ [Call.assets_get asset_name,
          Call.assets_create_or_update (asset_name ++ env.uuid1_repr)] ∧
      (create_output_assetM env asset_name st).2.printed =
        st.printed ++
          ["Warning – found an existing Asset with name = " ++ asset_name,
           "Creating an Asset with this name instead: " ++
             (asset_name ++ env.uuid1_repr)] ∧
      asset_name ++ env.uuid1_repr ∈
        (create_output_assetM env asset_name st).2.state.assets) ∧
    (asset_name ∉ st.state.assets →
      (create_output_assetM env asset_name st).1 =
        BlockResult.ok ⟨asset_name⟩ ∧
      (create_output_assetM env asset_name st).2.calls =
        st.calls ++ [Call.assets_get asset_name,
          Call.assets_create_or_update asset_name] ∧
      (create_output_assetM env asset_name st).2.printed = st.printed ∧
      asset_name ∈ (create_output_assetM env asset_name st).2.state.assets) := by
  constructor
  · intro hmem
    have hne := append_ne_of_ne_empty asset_name env.uuid1_repr hrepr
    refine ⟨?_, hne, ?_, ?_, ?_⟩ <;>
      simp [create_output_assetM, assetsGetM, assetsCreateOrUpdateM,
        M_bind_apply, M_pure_apply, callRemote, henv, getAccount,
        setAccount, printLine, hmem] <;>
      by_cases hmem2 : asset_name ++ env.uuid1_repr ∈ st.state.assets <;>
      simp [hmem2]
  · intro hmem
    refine ⟨?_, ?_, ?_, ?_⟩ <;>
      simp [create_output_assetM, assetsGetM, assetsCreateOrUpdateM,
        M_bind_apply, M_pure_apply, callRemote, henv, getAccount,
        setAccount, printLine, hmem]

/-- Witness for C3: on an account already holding an asset named
`output-1`, the fallback path returns the suffixed name. -/
theorem create_output_asset_spec_witness :
    (create_output_assetM defaultEnv "output-1"
        (initRunSt { emptyAccount with assets := ["output-1"] })).1 =
      BlockResult.ok ⟨"output-1" ++ defaultEnv.uuid1_repr⟩ ∧
    "output-1" ++ defaultEnv.uuid1_repr ≠ "output-1" := by
  have h := (create_output_asset_spec defaultEnv
      (initRunSt { emptyAccount with assets := ["output-1"] }) "output-1"
      (fun _ => rfl) (by decide)).1 (by decide)
  exact ⟨h.1, h.2.1⟩

/-- **C5.** `get_or_create_transform`, run under an environment in which
the calls it issues return normally, is idempotent: when `transforms.get`
finds an existing transform the call returns it having issued only the
`get` call and leaves the execution state otherwise unchanged; only when
the fetch returns null is `transforms.create_or_update` issued, with the
single specified output `[TransformOutput(preset)]`; consequently a second
call with the same name — whatever preset it passes — returns the very
transform the first call returned, issuing no create call.  The encrypt
script's copy is the same body at the fixed
`BuiltInStandardEncoderPreset(adaptive_streaming)` preset. -/
theorem get_or_create_transform_idempotent (env : Env) (st : RunSt)
    (transform_name : String) (preset preset' : Preset)
    (henv : ∀ c, env.behave c = CallOutcome.ok) :
    (∀ t, st.state.transforms.lookup transform_name = some t →
      get_or_create_transformM env transform_name preset st =
        (BlockResult.ok t,
          { st with calls :=
              st.calls ++ [Call.transforms_get transform_name] })) ∧
    (st.state.transforms.lookup transform_name = none →
      get_or_create_transformM env transform_name preset st =
        (BlockResult.ok ⟨[⟨preset⟩]⟩,
          { st with
              state := { st.state with transforms :=
                (transform_name, ⟨[⟨preset⟩]⟩) :: st.state.transforms }
              calls := st.calls ++ [Call.transforms_get transform_name,
                Call.transforms_create_or_update transform_name
                  [⟨preset⟩]] })) ∧
    (∀ t1 st1,
      get_or_create_transformM env transform_name preset st =
        (BlockResult.ok t1, st1) →
      get_or_create_transformM env transform_name preset' st1 =
        (BlockResult.ok t1,
          { st1 with calls :=
              st1.calls ++ [Call.transforms_get transform_name] })) ∧
    (get_or_create_transform_encryptM env transform_name st =
      get_or_create_transformM env transform_name
        (Preset.builtInStandardEncoder "AdaptiveStreaming") st) := by
  have heval : ∀ (p : Preset) (st' : RunSt),
      get_or_create_transformM env transform_name p st' =
        match st'.state.transforms.lookup transform_name with
        | some t =>
          (BlockResult.ok t,
            { st' with calls :=
                st'.calls ++ [Call.transforms_get transform_name] })
        | none =>
          (BlockResult.ok ⟨[⟨p⟩]⟩,
            { st' with
                state := { st'.state with transforms :=
                  (transform_name, ⟨[⟨p⟩]⟩) :: st'.state.transforms }
                calls := st'.calls ++ [Call.transforms_get transform_name,
                  Call.transforms_create_or_update transform_name
                    [⟨p⟩]] }) := by
    intro p st'
    cases h : st'.state.transforms.lookup transform_name <;>
      simp [get_or_create_transformM, transformsGetM,
        transformsCreateOrUpdateM, M_bind_apply, M_pure_apply, callRemote,
        henv, getAccount, setAccount, h]
  refine ⟨?_, ?_, ?_, rfl⟩
  · intro t ht
    rw [heval preset st, ht]
  · intro ht
    rw [heval preset st, ht]
  · intro t1 st1 h
    cases hl : st.state.transforms.lookup transform_name with
    | some t =>
      rw [heval preset st, hl] at h
      have ht1 : t1 = t := by
        have := congrArg Prod.fst h
        simpa using this.symm
      have hst1 : st1 =
          { st with calls :=
              st.calls ++ [Call.transforms_get transform_name] } := by
        have := congrArg Prod.snd h
        simpa using this.symm
      subst ht1 hst1
      rw [heval preset' _]
      simp [hl]
    | none =>
      rw [heval preset st, hl] at h
      have ht1 : t1 = ⟨[⟨preset⟩]⟩ := by
        have := congrArg Prod.fst h
        simpa using this.symm
      have hst1 : st1 =
          { st with
              state := { st.state with transforms :=
                (transform_name, ⟨[⟨preset⟩]⟩) :: st.state.transforms }
              calls := st.calls ++ [Call.transforms_get transform_name,
                Call.transforms_create_or_update transform_name
                  [⟨preset⟩]] } := by
        have := congrArg Prod.snd h
        simpa using this.symm
      subst ht1 hst1
      rw [heval preset' _]
      simp [List.lookup]

/-- Witness for C5: on an empty account the first call creates the
transform and a second call returns it with only a `get`. -/
theorem get_or_create_transform_idempotent_witness :
    get_or_create_transformM defaultEnv "t1"
        (Preset.videoAnalyzer "en-US")
        ((get_or_create_transformM defaultEnv "t1"
          (Preset.videoAnalyzer "en-US") (initRunSt emptyAccount)).2) =
      (BlockResult.ok ⟨[⟨Preset.videoAnalyzer "en-US"⟩]⟩,
        { (get_or_create_transformM defaultEnv "t1"
            (Preset.videoAnalyzer "en-US") (initRunSt emptyAccount)).2 with
          calls := (get_or_create_transformM defaultEnv "t1"
              (Preset.videoAnalyzer "en-US")
              (initRunSt emptyAccount)).2.calls ++
            [Call.transforms_get "t1"] }) := by
  have h := (get_or_create_transform_idempotent defaultEnv
      (initRunSt emptyAccount) "t1" (Preset.videoAnalyzer "en-US")
      (Preset.videoAnalyzer "en-US") (fun _ => rfl)).2.2.1
      ⟨[⟨Preset.videoAnalyzer "en-US"⟩]⟩
      ((get_or_create_transformM defaultEnv "t1"
        (Preset.videoAnalyzer "en-US") (initRunSt emptyAccount)).2)
      (by rfl)
  exact h

/-! ## Evaluation lemmas for the cleanup loops -/

theorem jobsDeleteM_apply (env : Env) (transform_name job_name : String)
    (st : RunSt)
    (h : env.behave (Call.jobs_delete transform_name job_name) =
      CallOutcome.ok) :
    jobsDeleteM env transform_name job_name st =
      (BlockResult.ok (),
        { st with
            state := { st.state with jobs := st.state.jobs.filter (fun p =>
              decide ¬(p.1 = transform_name ∧ p.2 = job_name)) }
            calls := st.calls ++
              [Call.jobs_delete transform_name job_name] }) := by
  simp [jobsDeleteM, M_bind_apply, callRemote, h, setAccount]

theorem assetsDeleteM_apply (env : Env) (asset_name : String) (st : RunSt)
    (h : env.behave (Call.assets_delete asset_name) = CallOutcome.ok) :
    assetsDeleteM env asset_name st =
      (BlockResult.ok (),
        { st with
            state := { st.state with assets := st.state.assets.filter (fun
              a => decide (a ≠ asset_name)) }
            calls := st.calls ++ [Call.assets_delete asset_name] }) := by
  simp [assetsDeleteM, M_bind_apply, callRemote, h, setAccount]

theorem streamingLocatorsDeleteM_apply (env : Env) (locator_name : String)
    (st : RunSt)
    (h : env.behave (Call.streaming_locators_delete locator_name) =
      CallOutcome.ok) :
    streamingLocatorsDeleteM env locator_name st =
      (BlockResult.ok (),
        { st with
            state := { st.state with streaming_locators :=
              st.state.streaming_locators.filter (fun
                a => decide (a ≠ locator_name)) }
            calls := st.calls ++
              [Call.streaming_locators_delete locator_name] }) := by
  simp [streamingLocatorsDeleteM, M_bind_apply, callRemote, h, setAccount]

theorem jobsListM_apply (env : Env) (transform_name : String) (st : RunSt)
    (h : env.behave (Call.jobs_list transform_name) = CallOutcome.ok) :
    jobsListM env transform_name st =
      (BlockResult.ok ((st.state.jobs.filter (fun p =>
          decide (p.1 = transform_name))).map Prod.snd),
        { st with calls := st.calls ++ [Call.jobs_list transform_name] }) := by
  simp [jobsListM, M_bind_apply, M_pure_apply, callRemote, h, getAccount]

theorem assetsListM_apply (env : Env) (st : RunSt)
    (h : env.behave Call.assets_list = CallOutcome.ok) :
    assetsListM env st =
      (BlockResult.ok (st.state.assets.map Asset.mk),
        { st with calls := st.calls ++ [Call.assets_list] }) := by
  simp [assetsListM, M_bind_apply, M_pure_apply, callRemote, h, getAccount]

theorem streamingLocatorsListM_apply (env : Env) (st : RunSt)
    (h : env.behave Call.streaming_locators_list = CallOutcome.ok) :
    streamingLocatorsListM env st =
      (BlockResult.ok st.state.streaming_locators,
        { st with calls := st.calls ++ [Call.streaming_locators_list] }) := by
  simp [streamingLocatorsListM, M_bind_apply, M_pure_apply, callRemote, h,
    getAccount]

theorem contentKeyPoliciesDeleteM_apply (env : Env) (policy_name : String)
    (st : RunSt)
    (h : env.behave (Call.content_key_policies_delete policy_name) =
      CallOutcome.ok) :
    contentKeyPoliciesDeleteM env policy_name st =
      (BlockResult.ok (),
        { st with
            state := { st.state with content_key_policies :=
              st.state.content_key_policies.filter (fun
                a => decide (a ≠ policy_name)) }
            calls := st.calls ++
              [Call.content_key_policies_delete policy_name] }) := by
  simp [contentKeyPoliciesDeleteM, M_bind_apply, callRemote, h, setAccount]

theorem forEach_jobsDelete_apply (env : Env) (transform_name : String)
    (henv : ∀ c, env.behave c = CallOutcome.ok) (L : List String) :
    ∀ st : RunSt,
      forEachM L (fun j => jobsDeleteM env transform_name j) st =
        (BlockResult.ok (),
          { st with
              state := { st.state with jobs := st.state.jobs.filter (fun
                p => decide ¬(p.1 = transform_name ∧ p.2 ∈ L)) }
              calls := st.calls ++
                L.map (Call.jobs_delete transform_name) }) := by
  induction L with
  | nil =>
    intro st
    simp [forEachM, M_pure_apply]
  | cons j L ih =>
    intro st
    simp only [forEachM, M_bind_apply,
      jobsDeleteM_apply env transform_name j st (henv _), ih]
    simp
    apply List.filter_congr
    intro p _
    by_cases h1 : p.1 = transform_name <;> by_cases h2 : p.2 = j <;>
      by_cases h3 : p.2 ∈ L <;> simp [h1, h2, h3]

theorem forEach_assetsDelete_apply (env : Env)
    (henv : ∀ c, env.behave c = CallOutcome.ok) (L : List Asset) :
    ∀ st : RunSt,
      forEachM L (fun asset => assetsDeleteM env asset.name) st =
        (BlockResult.ok (),
          { st with
              state := { st.state with assets := st.state.assets.filter (fun
                a => decide (a ∉ L.map Asset.name)) }
              calls := st.calls ++
                L.map (fun asset => Call.assets_delete asset.name) }) := by
  induction L with
  | nil =>
    intro st
    simp [forEachM, M_pure_apply]
  | cons x L ih =>
    intro st
    simp only [forEachM, M_bind_apply,
      assetsDeleteM_apply env x.name st (henv _), ih]
    simp
    apply List.filter_congr
    intro a _
    by_cases h1 : a = x.name <;> by_cases h2 : a ∈ L.map Asset.name <;>
      simp [h1, h2]

theorem forEach_locatorsDelete_apply (env : Env)
    (henv : ∀ c, env.behave c = CallOutcome.ok) (L : List String) :
    ∀ st : RunSt,
      forEachM L (fun locator => streamingLocatorsDeleteM env locator) st =
        (BlockResult.ok (),
          { st with
              state := { st.state with streaming_locators :=
                st.state.streaming_locators.filter (fun
                  a => decide (a ∉ L)) }
              calls := st.calls ++
                L.map Call.streaming_locators_delete }) := by
  induction L with
  | nil =>
    intro st
    simp [forEachM, M_pure_apply]
  | cons x L ih =>
    intro st
    simp only [forEachM, M_bind_apply,
      streamingLocatorsDeleteM_apply env x st (henv _), ih]
    simp
    apply List.filter_congr
    intro a _
    by_cases h1 : a = x <;> by_cases h2 : a ∈ L <;> simp [h1, h2]

/-- Deleting every job listed under the transform leaves exactly the jobs
of the other transforms. -/
theorem filter_not_listed_jobs (transform_name : String)
    (jobs : List (String × String)) :
    jobs.filter (fun p => !decide (p.1 = transform_name) ||
      !decide ((transform_name, p.2) ∈ jobs)) =
    jobs.filter (fun p => !decide (p.1 = transform_name)) := by
  apply List.filter_congr
  intro p hp
  by_cases h1 : p.1 = transform_name
  · have hmem : (transform_name, p.2) ∈ jobs := by
      rw [← h1]
      simpa using hp
    simp [h1, hmem]
  · simp [h1]

/-- Deleting every listed name from the listing itself empties it. -/
theorem filter_not_mem_self (l : List String) :
    l.filter (fun a => decide (a ∉ l)) = [] := by
  apply List.filter_eq_nil_iff.mpr
  intro a ha
  simp [ha]

/-- **C9.** The `clean_up` of the analyze script deletes every job listed
under the configured transform and every asset listed in the media
account, and the encrypt script's `clean_up` additionally deletes every
streaming locator in the account and the named content key policy — the
listings are of the whole account, not only the resources the current run
created — and no resource outside those listings is touched: the calls
issued are exactly the list calls plus one delete per listed resource, and
every other component of the account state is unchanged. -/
theorem clean_up_spec (env : Env) (st : RunSt)
    (transform_name content_key_policy_name : String)
    (henv : ∀ c, env.behave c = CallOutcome.ok) :
    ((clean_upM env transform_name st).1 = BlockResult.ok () ∧
     (clean_upM env transform_name st).2.state.jobs =
       st.state.jobs.filter (fun p => decide (p.1 ≠ transform_name)) ∧
     (clean_upM env transform_name st).2.state.assets = [] ∧
     (clean_upM env transform_name st).2.state.transforms =
       st.state.transforms ∧
     (clean_upM env transform_name st).2.state.streaming_locators =
       st.state.streaming_locators ∧
     (clean_upM env transform_name st).2.state.content_key_policies =
       st.state.content_key_policies ∧
     (clean_upM env transform_name st).2.state.streaming_endpoints =
       st.state.streaming_endpoints ∧
     (clean_upM env transform_name st).2.state.live_events =
       st.state.live_events ∧
     (clean_upM env transform_name st).2.state.live_outputs =
       st.state.live_outputs ∧
     (clean_upM env transform_name st).2.printed = st.printed ∧
     (clean_upM env transform_name st).2.calls =
       st.calls ++ [Call.jobs_list transform_name] ++
         ((st.state.jobs.filter (fun p =>
           decide (p.1 = transform_name))).map Prod.snd).map
             (Call.jobs_delete transform_name) ++
         [Call.assets_list] ++
         st.state.assets.map Call.assets_delete) ∧
    ((clean_up_encryptM env transform_name content_key_policy_name st).1 =
       BlockResult.ok () ∧
     (clean_up_encryptM env transform_name content_key_policy_name
       st).2.state.jobs =
       st.state.jobs.filter (fun p => decide (p.1 ≠ transform_name)) ∧
     (clean_up_encryptM env transform_name content_key_policy_name
       st).2.state.streaming_locators = [] ∧
     (clean_up_encryptM env transform_name content_key_policy_name
       st).2.state.assets = [] ∧
     (clean_up_encryptM env transform_name content_key_policy_name
       st).2.state.content_key_policies =
       st.state.content_key_policies.filter (fun a =>
         decide (a ≠ content_key_policy_name)) ∧
     (clean_up_encryptM env transform_name content_key_policy_name
       st).2.state.transforms = st.state.transforms ∧
     (clean_up_encryptM env transform_name content_key_policy_name
       st).2.state.streaming_endpoints = st.state.streaming_endpoints ∧
     (clean_up_encryptM env transform_name content_key_policy_name
       st).2.state.live_events = st.state.live_events ∧
     (clean_up_encryptM env transform_name content_key_policy_name
       st).2.state.live_outputs = st.state.live_outputs ∧
     (clean_up_encryptM env transform_name content_key_policy_name
       st).2.printed = st.printed ∧
     (clean_up_encryptM env transform_name content_key_policy_name
       st).2.calls =
       st.calls ++ [Call.jobs_list transform_name] ++
         ((st.state.jobs.filter (fun p =>
           decide (p.1 = transform_name))).map Prod.snd).map
             (Call.jobs_delete transform_name) ++
         [Call.streaming_locators_list] ++
         st.state.streaming_locators.map Call.streaming_locators_delete ++
         [Call.assets_list] ++
         st.state.assets.map Call.assets_delete ++
         [Call.content_key_policies_delete content_key_policy_name]) := by
  have hassets : ∀ l : List String,
      l.filter (fun a => decide (a ∉ (l.map Asset.mk).map Asset.name)) =
        [] := by
    intro l
    have hcomp : Asset.name ∘ Asset.mk = id := rfl
    have : (l.map Asset.mk).map Asset.name = l := by
      simp [List.map_map, hcomp]
    rw [this]
    exact filter_not_mem_self l
  constructor
  · refine ⟨?_, ?_, ?_, ?_, ?_, ?_, ?_, ?_, ?_, ?_, ?_⟩ <;>
      simp only [clean_upM, M_bind_apply,
        jobsListM_apply env transform_name st (henv _),
        forEach_jobsDelete_apply env transform_name henv,
        assetsListM_apply env _ (henv _),
        forEach_assetsDelete_apply env henv] <;>
      simp [filter_not_listed_jobs, hassets, filter_not_mem_self]
  · refine ⟨?_, ?_, ?_, ?_, ?_, ?_, ?_, ?_, ?_, ?_, ?_⟩ <;>
      simp only [clean_up_encryptM, M_bind_apply,
        jobsListM_apply env transform_name st (henv _),
        forEach_jobsDelete_apply env transform_name henv,
        streamingLocatorsListM_apply env _ (henv _),
        forEach_locatorsDelete_apply env henv,
        assetsListM_apply env _ (henv _),
        forEach_assetsDelete_apply env henv,
        contentKeyPoliciesDeleteM_apply env content_key_policy_name _
          (henv _)] <;>
      simp [filter_not_listed_jobs, hassets, filter_not_mem_self]

/-- Witness for C9: an account with jobs under two transforms and one
asset; cleaning up transform `t1` removes its job and all assets while
the `t2` job survives, and the encrypt cleanup also empties the locators
and removes the named policy. -/
theorem clean_up_spec_witness :
    (clean_upM defaultEnv "t1" (initRunSt
        { emptyAccount with
            jobs := [("t1", "job-a"), ("t2", "job-b")]
            assets := ["a1"] })).2.state.jobs = [("t2", "job-b")] ∧
    (clean_upM defaultEnv "t1" (initRunSt
        { emptyAccount with
            jobs := [("t1", "job-a"), ("t2", "job-b")]
            assets := ["a1"] })).2.state.assets = [] ∧
    (clean_up_encryptM defaultEnv "t1" "policy1" (initRunSt
        { emptyAccount with
            jobs := [("t1", "job-a"), ("t2", "job-b")]
            assets := ["a1"]
            streaming_locators := ["loc1"]
            content_key_policies := ["policy1", "policy2"]
        })).2.state.streaming_locators = [] ∧
    (clean_up_encryptM defaultEnv "t1" "policy1" (initRunSt
        { emptyAccount with
            jobs := [("t1", "job-a"), ("t2", "job-b")]
            assets := ["a1"]
            streaming_locators := ["loc1"]
            content_key_policies := ["policy1", "policy2"]
        })).2.state.content_key_policies = ["policy2"] := by
  have h1 := clean_up_spec defaultEnv (initRunSt
      { emptyAccount with
          jobs := [("t1", "job-a"), ("t2", "job-b")]
          assets := ["a1"] }) "t1" "policy1" (fun _ => rfl)
  have h2 := clean_up_spec defaultEnv (initRunSt
      { emptyAccount with
          jobs := [("t1", "job-a"), ("t2", "job-b")]
          assets := ["a1"]
          streaming_locators := ["loc1"]
          content_key_policies := ["policy1", "policy2"] })
    "t1" "policy1" (fun _ => rfl)
  refine ⟨?_, h1.1.2.2.1, h2.2.2.2.1, ?_⟩
  · rw [h1.1.2.1]
    decide
  · rw [h2.2.2.2.2.2.1]
    decide

/-! ## Lookup/filter helpers for the live-event cleanup -/

theorem lookup_filter_ne {β : Type} (l : List (String × β)) (k : String) :
    (l.filter (fun p => decide (p.1 ≠ k))).lookup k = none := by
  induction l with
  | nil => rfl
  | cons p rest ih =>
    obtain ⟨p1, p2⟩ := p
    rw [List.filter_cons]
    by_cases h : p1 = k
    · rw [if_neg (by simp [h])]
      exact ih
    · rw [if_pos (by simp [h])]
      have hbeq : (k == p1) = false := beq_eq_false_iff_ne.mpr (Ne.symm h)
      simp only [List.lookup, hbeq, ih]

theorem not_mem_filter_ne (l : List String) (a : String) :
    a ∉ l.filter (fun x => decide (x ≠ a)) := by
  intro hmem
  have := List.of_mem_filter hmem
  simp at this

/-- After `clean_up_live_event_and_live_output` the live event is gone:
its `live_events.get` returns null. -/
theorem cleanup_live_event_get_none (s : AccountState)
    (live_event_name : String) :
    live_events_get_op
      (clean_up_live_event_and_live_output s live_event_name).1
      live_event_name = none := by
  have hdel : ∀ s' : AccountState,
      live_events_get_op (live_events_delete_op s' live_event_name)
        live_event_name = none := by
    intro s'
    exact lookup_filter_ne s'.live_events live_event_name
  cases h : live_events_get_op s live_event_name with
  | none => simp [clean_up_live_event_and_live_output, h]
  | some ev =>
    by_cases hr : ev.resource_state = LiveEventResourceState.running <;>
      simp [clean_up_live_event_and_live_output, h, hr, hdel]

/-- **C10.** `clean_up_live_event_and_live_output` is idempotent: when
`live_events.get` returns null it issues no stop and no delete call and
returns with the account unchanged; when the event exists it issues the
stop call (with `remove_outputs_on_stop = True`, and the 10-second sleep)
exactly when the event is in the running state, in either case before the
delete call; afterwards the event is gone, so a second invocation after a
successful cleanup performs only the null fetch and changes nothing. -/
theorem clean_up_live_event_idempotent (s : AccountState)
    (live_event_name : String) :
    (live_events_get_op s live_event_name = none →
      clean_up_live_event_and_live_output s live_event_name =
        (s, [Call.live_events_get live_event_name])) ∧
    (∀ ev, live_events_get_op s live_event_name = some ev →
      ev.resource_state = LiveEventResourceState.running →
      (clean_up_live_event_and_live_output s live_event_name).2 =
        [Call.live_events_get live_event_name,
         Call.live_events_stop live_event_name true,
         Call.sleep 10,
         Call.live_events_delete live_event_name]) ∧
    (∀ ev, live_events_get_op s live_event_name = some ev →
      ev.resource_state ≠ LiveEventResourceState.running →
      (clean_up_live_event_and_live_output s live_event_name).2 =
        [Call.live_events_get live_event_name,
         Call.live_events_delete live_event_name]) ∧
    live_events_get_op
      (clean_up_live_event_and_live_output s live_event_name).1
      live_event_name = none ∧
    clean_up_live_event_and_live_output
        (clean_up_live_event_and_live_output s live_event_name).1
        live_event_name =
      ((clean_up_live_event_and_live_output s live_event_name).1,
        [Call.live_events_get live_event_name]) := by
  refine ⟨?_, ?_, ?_, cleanup_live_event_get_none s live_event_name, ?_⟩
  · intro h
    simp [clean_up_live_event_and_live_output, h]
  · intro ev h hr
    simp [clean_up_live_event_and_live_output, h, hr]
  · intro ev h hr
    simp [clean_up_live_event_and_live_output, h, hr]
  · have h4 := cleanup_live_event_get_none s live_event_name
    generalize hgen :
      (clean_up_live_event_and_live_output s live_event_name).1 = s1 at h4 ⊢
    simp [clean_up_live_event_and_live_output, h4]

/-- Witness for C10: cleaning up a running live event stops and deletes
it, and a second cleanup is a no-op. -/
theorem clean_up_live_event_idempotent_witness :
    (clean_up_live_event_and_live_output
        { emptyAccount with live_events :=
            [("liveevent-1", ⟨LiveEventResourceState.running, [], []⟩)] }
        "liveevent-1").2 =
      [Call.live_events_get "liveevent-1",
       Call.live_events_stop "liveevent-1" true,
       Call.sleep 10,
       Call.live_events_delete "liveevent-1"] ∧
    clean_up_live_event_and_live_output
        (clean_up_live_event_and_live_output
          { emptyAccount with live_events :=
              [("liveevent-1", ⟨LiveEventResourceState.running, [], []⟩)] }
          "liveevent-1").1
        "liveevent-1" =
      ((clean_up_live_event_and_live_output
          { emptyAccount with live_events :=
              [("liveevent-1", ⟨LiveEventResourceState.running, [], []⟩)] }
          "liveevent-1").1,
        [Call.live_events_get "liveevent-1"]) := by
  have h := clean_up_live_event_idempotent
    { emptyAccount with live_events :=
        [("liveevent-1", ⟨LiveEventResourceState.running, [], []⟩)] }
    "liveevent-1"
  exact ⟨h.2.1 ⟨LiveEventResourceState.running, [], []⟩ (by rfl) (by rfl),
    h.2.2.2.2⟩

/-! ## Evaluation of the live script's try/except/finally -/

theorem live_fin_apply (env : Env) (st : RunSt) :
    (do
      cleanUpLiveEventM ("liveevent-" ++ env.uniqueness.take 13)
      cleanUpLocatorAndAssetM
        ("streaminglocator-" ++ env.uniqueness.take 13)
        ("archiveasset-" ++ env.uniqueness.take 13) : M Unit) st =
      (BlockResult.ok (), live_finally_state env st) := by
  simp [M_bind_apply, cleanUpLiveEventM, cleanUpLocatorAndAssetM,
    live_finally_state]

theorem live_run_eval (env : Env) (s : AccountState) :
    live_run env s =
      match live_run_body env (initRunSt s) with
      | (BlockResult.ok _, st1) =>
        (BlockResult.ok (), live_finally_state env st1)
      | (BlockResult.exc (PyExc.apiError m), st1) =>
        (BlockResult.ok (), live_finally_state env
          { st1 with printed :=
              st1.printed ++ ["Hit ApiErrorException", m] })
      | (BlockResult.exc (PyExc.other m), st1) =>
        (BlockResult.exc (PyExc.other m), live_finally_state env st1)
      | (BlockResult.divergent, st1) => (BlockResult.divergent, st1) := by
  rcases hb : live_run_body env (initRunSt s) with ⟨r, st1⟩
  cases r with
  | ok a =>
    simp [live_run, tryExceptApiFinally, hb, live_fin_apply]
  | exc e =>
    cases e with
    | apiError m =>
      simp [live_run, tryExceptApiFinally, hb, M_bind_apply, printLine,
        cleanUpLiveEventM, cleanUpLocatorAndAssetM, live_finally_state]
    | other m =>
      simp [live_run, tryExceptApiFinally, hb, live_fin_apply]
  | divergent =>
    simp [live_run, tryExceptApiFinally, hb]

theorem live_finally_state_clean (env : Env) (st : RunSt) :
    live_events_get_op (live_finally_state env st).state
      ("liveevent-" ++ env.uniqueness.take 13) = none ∧
    ("streaminglocator-" ++ env.uniqueness.take 13) ∉
      (live_finally_state env st).state.streaming_locators ∧
    ("archiveasset-" ++ env.uniqueness.take 13) ∉
      (live_finally_state env st).state.assets ∧
    (live_finally_state env st).cleanup_live_event_invocations =
      st.cleanup_live_event_invocations + 1 ∧
    (live_finally_state env st).cleanup_locator_asset_invocations =
      st.cleanup_locator_asset_invocations + 1 := by
  refine ⟨?_, ?_, ?_, rfl, rfl⟩
  · have h1 := cleanup_live_event_get_none st.state
      ("liveevent-" ++ env.uniqueness.take 13)
    simpa [live_finally_state, clean_up_locator_and_asset,
      assets_delete_op, streaming_locators_delete_op,
      live_events_get_op] using h1
  · have h2 := not_mem_filter_ne
      (clean_up_live_event_and_live_output st.state
        ("liveevent-" ++ env.uniqueness.take 13)).1.streaming_locators
      ("streaminglocator-" ++ env.uniqueness.take 13)
    simpa [live_finally_state, clean_up_locator_and_asset,
      assets_delete_op, streaming_locators_delete_op] using h2
  · have h3 := not_mem_filter_ne
      (clean_up_live_event_and_live_output st.state
        ("liveevent-" ++ env.uniqueness.take 13)).1.assets
      ("archiveasset-" ++ env.uniqueness.take 13)
    simpa [live_finally_state, clean_up_locator_and_asset,
      assets_delete_op, streaming_locators_delete_op] using h3

/-- The publish/cleanup tail of the live `try` block invokes
`clean_up_live_event_and_live_output` at most once and
`clean_up_locator_and_asset` never. -/
theorem live_run_publish_block_counters (env : Env)
    (folded : String × String) (live_event_name : String) (st : RunSt) :
    (live_run_publish_block env folded
        live_event_name st).2.cleanup_live_event_invocations ≤
      st.cleanup_live_event_invocations + 1 ∧
    (live_run_publish_block env folded
        live_event_name st).2.cleanup_locator_asset_invocations =
      st.cleanup_locator_asset_invocations := by
  unfold live_run_publish_block
  by_cases hlen : folded.1.length > 0
  · simp only [hlen, if_true, M_bind_apply, printLine, promptM, callRemote]
    cases h1 : env.behave (Call.prompt "Press enter to stop the LiveOutput...") with
    | raiseApi m => simp
    | raiseOther m => simp
    | ok =>
      simp only [cleanUpLiveEventM]
      cases h2 : env.behave (Call.prompt "Press enter to finish cleanup...") with
      | raiseApi m => simp
      | raiseOther m => simp
      | ok => simp
  · simp only [hlen, if_false, M_bind_apply, printLine]
    simp

set_option maxHeartbeats 2000000 in
/-- The `try` block of the live script invokes
`clean_up_live_event_and_live_output` at most once (on the
successful-streaming branch) and `clean_up_locator_and_asset` never. -/
theorem live_run_body_counter_bound (env : Env) (s : AccountState) :
    (live_run_body env (initRunSt s)).2.cleanup_live_event_invocations ≤ 1 ∧
    (live_run_body env
      (initRunSt s)).2.cleanup_locator_asset_invocations = 0 := by
  unfold live_run_body
  cases h1 : env.behave Call.mediaservices_get with
  | raiseApi m => simp [M_bind_apply, M_pure_apply, callRemote, getAccount, setAccount,
      printLine, printLines, promptM, raise, diverge, live_events_get_op,
      List.lookup, initRunSt, mediaservicesGetM, liveEventsCreateM,
      liveEventsGetM, assetsCreateOrUpdateM, liveOutputsCreateM,
      streamingLocatorsCreateM, streamingEndpointsGetM,
      streamingEndpointsStartM, streamingLocatorsListPathsM, h1]
  | raiseOther m => simp [M_bind_apply, M_pure_apply, callRemote, getAccount, setAccount,
      printLine, printLines, promptM, raise, diverge, live_events_get_op,
      List.lookup, initRunSt, mediaservicesGetM, liveEventsCreateM,
      liveEventsGetM, assetsCreateOrUpdateM, liveOutputsCreateM,
      streamingLocatorsCreateM, streamingEndpointsGetM,
      streamingEndpointsStartM, streamingLocatorsListPathsM, h1]
  | ok =>
  simp only [M_bind_apply, M_pure_apply, callRemote, getAccount, setAccount,
      printLine, printLines, promptM, raise, diverge, live_events_get_op,
      List.lookup, initRunSt, mediaservicesGetM, liveEventsCreateM,
      liveEventsGetM, assetsCreateOrUpdateM, liveOutputsCreateM,
      streamingLocatorsCreateM, streamingEndpointsGetM,
      streamingEndpointsStartM, streamingLocatorsListPathsM, h1]
  cases h2 : env.behave (Call.live_events_create
      ("liveevent-" ++ env.uniqueness.take 13) true) with
  | raiseApi m => simp [M_bind_apply, M_pure_apply, callRemote, getAccount, setAccount,
      printLine, printLines, promptM, raise, diverge, live_events_get_op,
      List.lookup, initRunSt, mediaservicesGetM, liveEventsCreateM,
      liveEventsGetM, assetsCreateOrUpdateM, liveOutputsCreateM,
      streamingLocatorsCreateM, streamingEndpointsGetM,
      streamingEndpointsStartM, streamingLocatorsListPathsM, h2]
  | raiseOther m => simp [M_bind_apply, M_pure_apply, callRemote, getAccount, setAccount,
      printLine, printLines, promptM, raise, diverge, live_events_get_op,
      List.lookup, initRunSt, mediaservicesGetM, liveEventsCreateM,
      liveEventsGetM, assetsCreateOrUpdateM, liveOutputsCreateM,
      streamingLocatorsCreateM, streamingEndpointsGetM,
      streamingEndpointsStartM, streamingLocatorsListPathsM, h2]
  | ok =>
  simp only [M_bind_apply, M_pure_apply, callRemote, getAccount, setAccount,
      printLine, printLines, promptM, raise, diverge, live_events_get_op,
      List.lookup, initRunSt, mediaservicesGetM, liveEventsCreateM,
      liveEventsGetM, assetsCreateOrUpdateM, liveOutputsCreateM,
      streamingLocatorsCreateM, streamingEndpointsGetM,
      streamingEndpointsStartM, streamingLocatorsListPathsM, h2]
  cases h3 : env.behave (Call.live_events_get
      ("liveevent-" ++ env.uniqueness.take 13)) with
  | raiseApi m => simp [M_bind_apply, M_pure_apply, callRemote, getAccount, setAccount,
      printLine, printLines, promptM, raise, diverge, live_events_get_op,
      List.lookup, initRunSt, mediaservicesGetM, liveEventsCreateM,
      liveEventsGetM, assetsCreateOrUpdateM, liveOutputsCreateM,
      streamingLocatorsCreateM, streamingEndpointsGetM,
      streamingEndpointsStartM, streamingLocatorsListPathsM, h3]
  | raiseOther m => simp [M_bind_apply, M_pure_apply, callRemote, getAccount, setAccount,
      printLine, printLines, promptM, raise, diverge, live_events_get_op,
      List.lookup, initRunSt, mediaservicesGetM, liveEventsCreateM,
      liveEventsGetM, assetsCreateOrUpdateM, liveOutputsCreateM,
      streamingLocatorsCreateM, streamingEndpointsGetM,
      streamingEndpointsStartM, streamingLocatorsListPathsM, h3]
  | ok =>
  simp only [M_bind_apply, M_pure_apply, callRemote, getAccount, setAccount,
      printLine, printLines, promptM, raise, diverge, live_events_get_op,
      List.lookup, initRunSt, mediaservicesGetM, liveEventsCreateM,
      liveEventsGetM, assetsCreateOrUpdateM, liveOutputsCreateM,
      streamingLocatorsCreateM, streamingEndpointsGetM,
      streamingEndpointsStartM, streamingLocatorsListPathsM, h3, beq_self_eq_true]
  cases h4 : env.ingest_urls.head? with
  | none => simp [M_bind_apply, M_pure_apply, callRemote, getAccount, setAccount,
      printLine, printLines, promptM, raise, diverge, live_events_get_op,
      List.lookup, initRunSt, mediaservicesGetM, liveEventsCreateM,
      liveEventsGetM, assetsCreateOrUpdateM, liveOutputsCreateM,
      streamingLocatorsCreateM, streamingEndpointsGetM,
      streamingEndpointsStartM, streamingLocatorsListPathsM, h4]
  | some ingest_url =>
  simp only [M_bind_apply, M_pure_apply, callRemote, getAccount, setAccount,
      printLine, printLines, promptM, raise, diverge, live_events_get_op,
      List.lookup, initRunSt, mediaservicesGetM, liveEventsCreateM,
      liveEventsGetM, assetsCreateOrUpdateM, liveOutputsCreateM,
      streamingLocatorsCreateM, streamingEndpointsGetM,
      streamingEndpointsStartM, streamingLocatorsListPathsM, h4]
  cases h5 : env.preview_urls.head? with
  | none => simp [M_bind_apply, M_pure_apply, callRemote, getAccount, setAccount,
      printLine, printLines, promptM, raise, diverge, live_events_get_op,
      List.lookup, initRunSt, mediaservicesGetM, liveEventsCreateM,
      liveEventsGetM, assetsCreateOrUpdateM, liveOutputsCreateM,
      streamingLocatorsCreateM, streamingEndpointsGetM,
      streamingEndpointsStartM, streamingLocatorsListPathsM, h5]
  | some preview_url =>
  simp only [M_bind_apply, M_pure_apply, callRemote, getAccount, setAccount,
      printLine, printLines, promptM, raise, diverge, live_events_get_op,
      List.lookup, initRunSt, mediaservicesGetM, liveEventsCreateM,
      liveEventsGetM, assetsCreateOrUpdateM, liveOutputsCreateM,
      streamingLocatorsCreateM, streamingEndpointsGetM,
      streamingEndpointsStartM, streamingLocatorsListPathsM, h5]
  cases h6 : env.behave (Call.assets_create_or_update
      ("archiveasset-" ++ env.uniqueness.take 13)) with
  | raiseApi m => simp [M_bind_apply, M_pure_apply, callRemote, getAccount, setAccount,
      printLine, printLines, promptM, raise, diverge, live_events_get_op,
      List.lookup, initRunSt, mediaservicesGetM, liveEventsCreateM,
      liveEventsGetM, assetsCreateOrUpdateM, liveOutputsCreateM,
      streamingLocatorsCreateM, streamingEndpointsGetM,
      streamingEndpointsStartM, streamingLocatorsListPathsM, h6]
  | raiseOther m => simp [M_bind_apply, M_pure_apply, callRemote, getAccount, setAccount,
      printLine, printLines, promptM, raise, diverge, live_events_get_op,
      List.lookup, initRunSt, mediaservicesGetM, liveEventsCreateM,
      liveEventsGetM, assetsCreateOrUpdateM, liveOutputsCreateM,
      streamingLocatorsCreateM, streamingEndpointsGetM,
      streamingEndpointsStartM, streamingLocatorsListPathsM, h6]
  | ok =>
  simp only [M_bind_apply, M_pure_apply, callRemote, getAccount, setAccount,
      printLine, printLines, promptM, raise, diverge, live_events_get_op,
      List.lookup, initRunSt, mediaservicesGetM, liveEventsCreateM,
      liveEventsGetM, assetsCreateOrUpdateM, liveOutputsCreateM,
      streamingLocatorsCreateM, streamingEndpointsGetM,
      streamingEndpointsStartM, streamingLocatorsListPathsM, h6]
  cases h7 : env.behave (Call.live_outputs_create
      ("liveevent-" ++ env.uniqueness.take 13)
      ("liveoutput-" ++ env.uniqueness.take 13)) with
  | raiseApi m => simp [M_bind_apply, M_pure_apply, callRemote, getAccount, setAccount,
      printLine, printLines, promptM, raise, diverge, live_events_get_op,
      List.lookup, initRunSt, mediaservicesGetM, liveEventsCreateM,
      liveEventsGetM, assetsCreateOrUpdateM, liveOutputsCreateM,
      streamingLocatorsCreateM, streamingEndpointsGetM,
      streamingEndpointsStartM, streamingLocatorsListPathsM, h7]
  | raiseOther m => simp [M_bind_apply, M_pure_apply, callRemote, getAccount, setAccount,
      printLine, printLines, promptM, raise, diverge, live_events_get_op,
      List.lookup, initRunSt, mediaservicesGetM, liveEventsCreateM,
      liveEventsGetM, assetsCreateOrUpdateM, liveOutputsCreateM,
      streamingLocatorsCreateM, streamingEndpointsGetM,
      streamingEndpointsStartM, streamingLocatorsListPathsM, h7]
  | ok =>
  simp only [M_bind_apply, M_pure_apply, callRemote, getAccount, setAccount,
      printLine, printLines, promptM, raise, diverge, live_events_get_op,
      List.lookup, initRunSt, mediaservicesGetM, liveEventsCreateM,
      liveEventsGetM, assetsCreateOrUpdateM, liveOutputsCreateM,
      streamingLocatorsCreateM, streamingEndpointsGetM,
      streamingEndpointsStartM, streamingLocatorsListPathsM, h7]
  cases h8 : env.behave (Call.streaming_locators_create
      ("streaminglocator-" ++ env.uniqueness.take 13)) with
  | raiseApi m => simp [M_bind_apply, M_pure_apply, callRemote, getAccount, setAccount,
      printLine, printLines, promptM, raise, diverge, live_events_get_op,
      List.lookup, initRunSt, mediaservicesGetM, liveEventsCreateM,
      liveEventsGetM, assetsCreateOrUpdateM, liveOutputsCreateM,
      streamingLocatorsCreateM, streamingEndpointsGetM,
      streamingEndpointsStartM, streamingLocatorsListPathsM, h8]
  | raiseOther m => simp [M_bind_apply, M_pure_apply, callRemote, getAccount, setAccount,
      printLine, printLines, promptM, raise, diverge, live_events_get_op,
      List.lookup, initRunSt, mediaservicesGetM, liveEventsCreateM,
      liveEventsGetM, assetsCreateOrUpdateM, liveOutputsCreateM,
      streamingLocatorsCreateM, streamingEndpointsGetM,
      streamingEndpointsStartM, streamingLocatorsListPathsM, h8]
  | ok =>
  simp only [M_bind_apply, M_pure_apply, callRemote, getAccount, setAccount,
      printLine, printLines, promptM, raise, diverge, live_events_get_op,
      List.lookup, initRunSt, mediaservicesGetM, liveEventsCreateM,
      liveEventsGetM, assetsCreateOrUpdateM, liveOutputsCreateM,
      streamingLocatorsCreateM, streamingEndpointsGetM,
      streamingEndpointsStartM, streamingLocatorsListPathsM, h8]
  cases h9 : env.behave (Call.streaming_endpoints_get "default") with
  | raiseApi m => simp [M_bind_apply, M_pure_apply, callRemote, getAccount, setAccount,
      printLine, printLines, promptM, raise, diverge, live_events_get_op,
      List.lookup, initRunSt, mediaservicesGetM, liveEventsCreateM,
      liveEventsGetM, assetsCreateOrUpdateM, liveOutputsCreateM,
      streamingLocatorsCreateM, streamingEndpointsGetM,
      streamingEndpointsStartM, streamingLocatorsListPathsM, h9]
  | raiseOther m => simp [M_bind_apply, M_pure_apply, callRemote, getAccount, setAccount,
      printLine, printLines, promptM, raise, diverge, live_events_get_op,
      List.lookup, initRunSt, mediaservicesGetM, liveEventsCreateM,
      liveEventsGetM, assetsCreateOrUpdateM, liveOutputsCreateM,
      streamingLocatorsCreateM, streamingEndpointsGetM,
      streamingEndpointsStartM, streamingLocatorsListPathsM, h9]
  | ok =>
  simp only [M_bind_apply, M_pure_apply, callRemote, getAccount, setAccount,
      printLine, printLines, promptM, raise, diverge, live_events_get_op,
      List.lookup, initRunSt, mediaservicesGetM, liveEventsCreateM,
      liveEventsGetM, assetsCreateOrUpdateM, liveOutputsCreateM,
      streamingLocatorsCreateM, streamingEndpointsGetM,
      streamingEndpointsStartM, streamingLocatorsListPathsM, h9]
  cases h10 : s.streaming_endpoints.lookup "default" with
  | none => simp [M_bind_apply, M_pure_apply, callRemote, getAccount, setAccount,
      printLine, printLines, promptM, raise, diverge, live_events_get_op,
      List.lookup, initRunSt, mediaservicesGetM, liveEventsCreateM,
      liveEventsGetM, assetsCreateOrUpdateM, liveOutputsCreateM,
      streamingLocatorsCreateM, streamingEndpointsGetM,
      streamingEndpointsStartM, streamingLocatorsListPathsM, h10]
  | some endpoint =>
  simp only [M_bind_apply, M_pure_apply, callRemote, getAccount, setAccount,
      printLine, printLines, promptM, raise, diverge, live_events_get_op,
      List.lookup, initRunSt, mediaservicesGetM, liveEventsCreateM,
      liveEventsGetM, assetsCreateOrUpdateM, liveOutputsCreateM,
      streamingLocatorsCreateM, streamingEndpointsGetM,
      streamingEndpointsStartM, streamingLocatorsListPathsM, h10]
  by_cases h11 : endpoint.resource_state =
      StreamingEndpointResourceState.running
  · rw [if_neg (by simp [h11])]
    simp only [M_bind_apply, M_pure_apply, callRemote, getAccount, setAccount,
      printLine, printLines, promptM, raise, diverge, live_events_get_op,
      List.lookup, initRunSt, mediaservicesGetM, liveEventsCreateM,
      liveEventsGetM, assetsCreateOrUpdateM, liveOutputsCreateM,
      streamingLocatorsCreateM, streamingEndpointsGetM,
      streamingEndpointsStartM, streamingLocatorsListPathsM]
    cases h13 : env.behave (Call.streaming_locators_list_paths
        ("streaminglocator-" ++ env.uniqueness.take 13)) with
    | raiseApi m => simp [M_bind_apply, M_pure_apply, callRemote, getAccount, setAccount,
      printLine, printLines, promptM, raise, diverge, live_events_get_op,
      List.lookup, initRunSt, mediaservicesGetM, liveEventsCreateM,
      liveEventsGetM, assetsCreateOrUpdateM, liveOutputsCreateM,
      streamingLocatorsCreateM, streamingEndpointsGetM,
      streamingEndpointsStartM, streamingLocatorsListPathsM, h13]
    | raiseOther m => simp [M_bind_apply, M_pure_apply, callRemote, getAccount, setAccount,
      printLine, printLines, promptM, raise, diverge, live_events_get_op,
      List.lookup, initRunSt, mediaservicesGetM, liveEventsCreateM,
      liveEventsGetM, assetsCreateOrUpdateM, liveOutputsCreateM,
      streamingLocatorsCreateM, streamingEndpointsGetM,
      streamingEndpointsStartM, streamingLocatorsListPathsM, h13]
    | ok =>
    constructor
    · refine le_trans (live_run_publish_block_counters env _ _ _).1 ?_
      simp
    · refine ((live_run_publish_block_counters env _ _ _).2).trans ?_
      simp
  · rw [if_pos h11]
    simp only [M_bind_apply, M_pure_apply, callRemote, getAccount, setAccount,
      printLine, printLines, promptM, raise, diverge, live_events_get_op,
      List.lookup, initRunSt, mediaservicesGetM, liveEventsCreateM,
      liveEventsGetM, assetsCreateOrUpdateM, liveOutputsCreateM,
      streamingLocatorsCreateM, streamingEndpointsGetM,
      streamingEndpointsStartM, streamingLocatorsListPathsM]
    cases h12 : env.behave (Call.streaming_endpoints_start "default") with
    | raiseApi m => simp [M_bind_apply, M_pure_apply, callRemote, getAccount, setAccount,
      printLine, printLines, promptM, raise, diverge, live_events_get_op,
      List.lookup, initRunSt, mediaservicesGetM, liveEventsCreateM,
      liveEventsGetM, assetsCreateOrUpdateM, liveOutputsCreateM,
      streamingLocatorsCreateM, streamingEndpointsGetM,
      streamingEndpointsStartM, streamingLocatorsListPathsM, h12]
    | raiseOther m => simp [M_bind_apply, M_pure_apply, callRemote, getAccount, setAccount,
      printLine, printLines, promptM, raise, diverge, live_events_get_op,
      List.lookup, initRunSt, mediaservicesGetM, liveEventsCreateM,
      liveEventsGetM, assetsCreateOrUpdateM, liveOutputsCreateM,
      streamingLocatorsCreateM, streamingEndpointsGetM,
      streamingEndpointsStartM, streamingLocatorsListPathsM, h12]
    | ok =>
    simp only [M_bind_apply, M_pure_apply, callRemote, getAccount, setAccount,
      printLine, printLines, promptM, raise, diverge, live_events_get_op,
      List.lookup, initRunSt, mediaservicesGetM, liveEventsCreateM,
      liveEventsGetM, assetsCreateOrUpdateM, liveOutputsCreateM,
      streamingLocatorsCreateM, streamingEndpointsGetM,
      streamingEndpointsStartM, streamingLocatorsListPathsM, h12]
    cases h13 : env.behave (Call.streaming_locators_list_paths
        ("streaminglocator-" ++ env.uniqueness.take 13)) with
    | raiseApi m => simp [M_bind_apply, M_pure_apply, callRemote, getAccount, setAccount,
      printLine, printLines, promptM, raise, diverge, live_events_get_op,
      List.lookup, initRunSt, mediaservicesGetM, liveEventsCreateM,
      liveEventsGetM, assetsCreateOrUpdateM, liveOutputsCreateM,
      streamingLocatorsCreateM, streamingEndpointsGetM,
      streamingEndpointsStartM, streamingLocatorsListPathsM, h13]
    | raiseOther m => simp [M_bind_apply, M_pure_apply, callRemote, getAccount, setAccount,
      printLine, printLines, promptM, raise, diverge, live_events_get_op,
      List.lookup, initRunSt, mediaservicesGetM, liveEventsCreateM,
      liveEventsGetM, assetsCreateOrUpdateM, liveOutputsCreateM,
      streamingLocatorsCreateM, streamingEndpointsGetM,
      streamingEndpointsStartM, streamingLocatorsListPathsM, h13]
    | ok =>
    constructor
    · refine le_trans (live_run_publish_block_counters env _ _ _).1 ?_
      simp
    · refine ((live_run_publish_block_counters env _ _ _).2).trans ?_
      simp

/-- **C6.** In the live script's `run`, remote failures are caught only
for `ApiErrorException`: a run never surfaces an `ApiErrorException` — when
the body raises one, `run` returns normally having printed the
`Hit ApiErrorException` banner and the exception — while an exception of
any other type propagates out of `run` unchanged; on every exit of `run`
(normal, caught, or uncaught) the `finally` block has invoked both cleanup
helpers, leaving the live event, the streaming locator and the archive
asset deleted.  By contrast, in the analyze and encrypt scripts an
`ApiErrorException` raised by a remote call propagates out of `run`
unhandled, as the closing existential exhibits. -/
theorem live_run_error_handling (env : Env) (s : AccountState) :
    (∀ e, (live_run env s).1 = BlockResult.exc e → ∃ m, e = PyExc.other m) ∧
    (∀ m st1, live_run_body env (initRunSt s) =
        (BlockResult.exc (PyExc.apiError m), st1) →
      (live_run env s).1 = BlockResult.ok () ∧
      "Hit ApiErrorException" ∈ (live_run env s).2.printed ∧
      m ∈ (live_run env s).2.printed) ∧
    (∀ m st1, live_run_body env (initRunSt s) =
        (BlockResult.exc (PyExc.other m), st1) →
      (live_run env s).1 = BlockResult.exc (PyExc.other m)) ∧
    ((live_run env s).1 ≠ BlockResult.divergent →
      live_events_get_op (live_run env s).2.state
        ("liveevent-" ++ env.uniqueness.take 13) = none ∧
      ("streaminglocator-" ++ env.uniqueness.take 13) ∉
        (live_run env s).2.state.streaming_locators ∧
      ("archiveasset-" ++ env.uniqueness.take 13) ∉
        (live_run env s).2.state.assets ∧
      1 ≤ (live_run env s).2.cleanup_live_event_invocations ∧
      1 ≤ (live_run env s).2.cleanup_locator_asset_invocations) ∧
    (∃ m, (analyze_run
        { defaultEnv with behave := fun _ => CallOutcome.raiseApi "401" }
        "t1" emptyAccount).1 = BlockResult.exc (PyExc.apiError m) ∧
      (encrypt_run
        { defaultEnv with behave := fun _ => CallOutcome.raiseApi "401" }
        ⟨"iss", "aud", "ckid", "policy1", List.replicate 40 0, by simp⟩
        "t1" emptyAccount).1 = BlockResult.exc (PyExc.apiError m)) := by
  rcases hb : live_run_body env (initRunSt s) with ⟨r, st1⟩
  have heval := live_run_eval env s
  rw [hb] at heval
  refine ⟨?_, ?_, ?_, ?_, ⟨"401", rfl, rfl⟩⟩
  · intro e hexc
    cases r with
    | ok a => rw [heval] at hexc; simp at hexc
    | exc e' =>
      cases e' with
      | apiError m => rw [heval] at hexc; simp at hexc
      | other m =>
        rw [heval] at hexc
        simp at hexc
        exact ⟨m, hexc.symm⟩
    | divergent => rw [heval] at hexc; simp at hexc
  · intro m st1' hb'
    have hr := congrArg Prod.fst hb'
    simp only at hr
    subst hr
    rw [heval]
    refine ⟨rfl, ?_, ?_⟩ <;> simp [live_finally_state]
  · intro m st1' hb'
    have hr := congrArg Prod.fst hb'
    simp only at hr
    subst hr
    rw [heval]
  · intro hnd
    cases r with
    | ok a =>
      rw [heval]
      have hc := live_finally_state_clean env st1
      exact ⟨hc.1, hc.2.1, hc.2.2.1, by simp [live_finally_state],
        by simp [live_finally_state]⟩
    | exc e' =>
      cases e' with
      | apiError m =>
        rw [heval]
        have hc := live_finally_state_clean env
          { st1 with printed := st1.printed ++ ["Hit ApiErrorException", m] }
        exact ⟨hc.1, hc.2.1, hc.2.2.1, by simp [live_finally_state],
          by simp [live_finally_state]⟩
      | other m =>
        rw [heval]
        have hc := live_finally_state_clean env st1
        exact ⟨hc.1, hc.2.1, hc.2.2.1, by simp [live_finally_state],
          by simp [live_finally_state]⟩
    | divergent =>
      rw [heval] at hnd
      simp at hnd

/-- Witness for C6: under an environment whose first remote call raises
`ApiErrorException`, the live `run` returns normally with the banner and
the message printed. -/
theorem live_run_error_handling_witness :
    (live_run { defaultEnv with
      behave := fun _ => CallOutcome.raiseApi "401" }
      emptyAccount).1 = BlockResult.ok () ∧
    "Hit ApiErrorException" ∈ (live_run { defaultEnv with
      behave := fun _ => CallOutcome.raiseApi "401" }
      emptyAccount).2.printed ∧
    "401" ∈ (live_run { defaultEnv with
      behave := fun _ => CallOutcome.raiseApi "401" }
      emptyAccount).2.printed :=
  (live_run_error_handling
      { defaultEnv with behave := fun _ => CallOutcome.raiseApi "401" }
      emptyAccount).2.1 "401"
    ((live_run_body
      { defaultEnv with behave := fun _ => CallOutcome.raiseApi "401" }
      (initRunSt emptyAccount)).2) (by rfl)

/-- Counterexample to C7 as stated: a completed execution of the live
script's `run` — all calls succeeding, one DASH streaming path — in which
`clean_up_live_event_and_live_output` is invoked twice (once in the body
on the successful streaming path, once more in the `finally` block), not
exactly once. -/
theorem live_run_cleanup_invoked_twice :
    (live_run
        { defaultEnv with streaming_paths :=
            [⟨StreamingProtocol.dash, "NoEncryption", ["/p/manifest"]⟩] }
        { emptyAccount with streaming_endpoints :=
            [("default",
              ⟨StreamingEndpointResourceState.running, "host.example"⟩)] }
      ).2.cleanup_live_event_invocations = 2 ∧
    ¬((live_run
        { defaultEnv with streaming_paths :=
            [⟨StreamingProtocol.dash, "NoEncryption", ["/p/manifest"]⟩] }
        { emptyAccount with streaming_endpoints :=
            [("default",
              ⟨StreamingEndpointResourceState.running, "host.example"⟩)] }
      ).2.cleanup_live_event_invocations = 1) := by
  constructor
  · rfl
  · decide

/-- **C7 (amended).** In every completed execution of the live script's
`run` — including executions in which the main workflow raises —
`clean_up_locator_and_asset` is invoked exactly once, and
`clean_up_live_event_and_live_output` is invoked once or twice: the
`finally` block contributes exactly one invocation on top of the body's
own, and the body contributes one exactly on the successful-streaming
branch (twice in total there), so cleanup is not invoked exactly once in
every execution. -/
theorem live_run_cleanup_count (env : Env) (s : AccountState)
    (h : (live_run env s).1 ≠ BlockResult.divergent) :
    1 ≤ (live_run env s).2.cleanup_live_event_invocations ∧
    (live_run env s).2.cleanup_live_event_invocations ≤ 2 ∧
    (live_run env s).2.cleanup_locator_asset_invocations = 1 ∧
    (live_run env s).2.cleanup_live_event_invocations =
      (live_run_body env
        (initRunSt s)).2.cleanup_live_event_invocations + 1 ∧
    ((live_run env s).2.cleanup_live_event_invocations = 2 ↔
      (live_run_body env
        (initRunSt s)).2.cleanup_live_event_invocations = 1) := by
  have hbnd := live_run_body_counter_bound env s
  rcases hb : live_run_body env (initRunSt s) with ⟨r, st1⟩
  rw [hb] at hbnd
  simp only at hbnd
  have heval := live_run_eval env s
  rw [hb] at heval
  cases r with
  | ok a =>
    rw [heval]
    simp only [live_finally_state]
    refine ⟨by simp, by simp [Nat.succ_le_succ hbnd.1], by simp [hbnd.2],
      by simp, by simp⟩
  | exc e' =>
    cases e' with
    | apiError m =>
      rw [heval]
      simp only [live_finally_state]
      refine ⟨by simp, by simp [Nat.succ_le_succ hbnd.1], by simp [hbnd.2],
        by simp, by simp⟩
    | other m =>
      rw [heval]
      simp only [live_finally_state]
      refine ⟨by simp, by simp [Nat.succ_le_succ hbnd.1], by simp [hbnd.2],
        by simp, by simp⟩
  | divergent =>
    rw [heval] at h
    simp at h

/-- Witness for the amended C7: a run whose endpoint fetch finds no
"default" endpoint raises, and cleanup still runs exactly once each. -/
theorem live_run_cleanup_count_witness :
    1 ≤ (live_run defaultEnv
      emptyAccount).2.cleanup_live_event_invocations ∧
    (live_run defaultEnv emptyAccount).2.cleanup_live_event_invocations
      ≤ 2 ∧
    (live_run defaultEnv
      emptyAccount).2.cleanup_locator_asset_invocations = 1 ∧
    (live_run defaultEnv emptyAccount).2.cleanup_live_event_invocations =
      (live_run_body defaultEnv
        (initRunSt emptyAccount)).2.cleanup_live_event_invocations + 1 ∧
    ((live_run defaultEnv
        emptyAccount).2.cleanup_live_event_invocations = 2 ↔
      (live_run_body defaultEnv
        (initRunSt emptyAccount)).2.cleanup_live_event_invocations = 1) :=
  live_run_cleanup_count defaultEnv emptyAccount (by decide)

end MediaServices
